import Mathlib

/-!
Verification of the EB-1 eligibility screener (`zz.py`).

The attribute map handed to the classifier holds, for each of the 21
attribute keys, either a boolean (checkbox flags) or a yes/no or
experience enum encoded as a string; any key may be absent, and the code
reads absent keys through `dict.get` with a `False` default (booleans) or
a `None` default (enums).  We model the map as a structure of `Option`
fields: `none` is an absent key.  The classifier body is a sequence of
conditional `return` statements; falling off the end of a Python function
yields `None`, so the embedded classifier returns `Option Result` and the
final unconditional `return` is the last `some`.
-/

set_option maxHeartbeats 4000000
set_option maxRecDepth 8000

namespace EB1

/-- A raw Python value as it appears in the report dictionaries: a bool,
a string, or `None` (absent key read through `dict.get`). -/
inductive PyVal where
  | pyBool (b : Bool)
  | pyStr (s : String)
  | pyNone
deriving DecidableEq

/-- Python str rendering for the values in `PyVal`. -/
def pyStrOf : PyVal → String
  | .pyBool true => "True"
  | .pyBool false => "False"
  | .pyStr s => s
  | .pyNone => "None"

/-- The attribute map over the 21 attribute keys of `CRITERIA_QUESTIONS`.
Boolean checkbox flags are `Option Bool`, enum selectboxes are
`Option String` (values like "yes", "no", "3_years", "<3_years");
`none` models an absent key. -/
structure CriteriaData where
  major_award : Option Bool := none
  lesser_awards : Option Bool := none
  membership : Option Bool := none
  publications : Option Bool := none
  judging : Option Bool := none
  original_contributions : Option Bool := none
  authorship : Option Bool := none
  performances : Option Bool := none
  high_salary : Option Bool := none
  commercial_success : Option Bool := none
  experience : Option String := none
  offer : Option String := none
  tenure : Option String := none
  published_articles : Option Bool := none
  judging_research : Option Bool := none
  original_contributions_research : Option Bool := none
  lesser_awards_b : Option Bool := none
  membership_b : Option Bool := none
  one_year_exp : Option String := none
  transfer : Option String := none
  managerial_role : Option String := none

/-- The outcome record returned by `check_eb1_eligibility`: one Python
dict literal per outcome, with fixed keys. -/
structure Result where
  category : String
  status : String
  score : String
  color : String
  title : String
  details : String
  next_steps : List String
  strength : String
  processing : String
deriving DecidableEq

/-- Python `sum` counts `True` as 1 and `False` as 0. -/
def b2n (b : Bool) : Nat := if b then 1 else 0

/-- Counter `eb1a_criteria_met` (zz.py lines 72-82): sum of the nine EB-1A
boolean flags, each read with `criteria_data.get(key, False)`. -/
def eb1a_criteria_met (c : CriteriaData) : Nat :=
  b2n (c.lesser_awards.getD false) +
  b2n (c.membership.getD false) +
  b2n (c.publications.getD false) +
  b2n (c.judging.getD false) +
  b2n (c.original_contributions.getD false) +
  b2n (c.authorship.getD false) +
  b2n (c.performances.getD false) +
  b2n (c.high_salary.getD false) +
  b2n (c.commercial_success.getD false)

/-- Counter `eb1b_criteria_met` (zz.py lines 86-93): three research booleans,
plus `tenure == 'yes'`, plus the consolidated `lesser_awards` and
`membership` flags. -/
def eb1b_criteria_met (c : CriteriaData) : Nat :=
  b2n (c.published_articles.getD false) +
  b2n (c.judging_research.getD false) +
  b2n (c.original_contributions_research.getD false) +
  b2n (c.tenure == some "yes") +
  b2n (c.lesser_awards.getD false) +
  b2n (c.membership.getD false)

/-- Flag `has_eb1b_basics` (zz.py lines 95-98). -/
def has_eb1b_basics (c : CriteriaData) : Bool :=
  c.experience == some "3_years" && c.offer == some "yes"

/-- Flag `eb1b_eligible` (zz.py line 100). -/
def eb1b_eligible (c : CriteriaData) : Bool :=
  has_eb1b_basics c && decide (2 ≤ eb1b_criteria_met c)

/-- Flag `eb1c_eligible` (zz.py lines 103-107). -/
def eb1c_eligible (c : CriteriaData) : Bool :=
  c.managerial_role == some "yes" &&
  c.one_year_exp == some "yes" &&
  c.transfer == some "yes"

/-- Flag `eb1c_partial` (zz.py line 413): any of the three EB-1C attributes
equals 'yes'. -/
def partial_c (c : CriteriaData) : Bool :=
  c.managerial_role == some "yes" ||
  c.one_year_exp == some "yes" ||
  c.transfer == some "yes"

/-- Major award override outcome (zz.py lines 52-69). -/
def outcomeMajorAward : Result :=
  { category := "EB-1A"
    status := "‚úÖ HIGHLY LIKELY"
    score := "10/10"
    color := "#006400"
    title := "Major Award Override - Exceptional Case"
    details := "You possess a major internationally recognized award (Nobel Prize, Oscar, Pulitzer Prize, Olympic Medal, Grammy, etc.). This single achievement typically satisfies all EB-1A requirements without needing additional criteria."
    next_steps := [
      "Gather official award documentation and certificates",
      "Compile media coverage and press releases about your award",
      "Prepare detailed impact statement of your achievement",
      "Document sustained acclaim following the award",
      "Consult with immigration attorney for petition preparation",
      "Prepare expert opinion letters highlighting award significance"]
    strength := "EXCEPTIONAL"
    processing := "Self-petition possible. Very high approval rate." }

/-- OUTCOME 1: Exceptional EB-1A, 7-10 criteria (zz.py lines 112-131). -/
def outcome1ExceptionalA (n : Nat) : Result :=
  { category := "EB-1A"
    status := "‚úÖ EXCEPTIONAL"
    score := toString n ++ "/10"
    color := "#006400"
    title := "Extraordinary Ability - Exceptional Profile"
    details := "You meet " ++ toString n ++ " of 10 EB-1A criteria (only 3 required). This is an exceptionally strong profile demonstrating sustained national or international acclaim at the very top of your field. You exceed requirements by a significant margin."
    next_steps := [
      "Compile comprehensive documentation for all criteria",
      "Obtain 6-10 expert opinion letters from internationally recognized leaders",
      "Prepare detailed CV with emphasis on impact and recognition",
      "Document evidence of sustained acclaim over multiple years",
      "Gather citation reports and impact metrics",
      "Engage experienced immigration attorney for premium processing",
      "Consider expedited processing given strength of case"]
    strength := "EXCEPTIONAL"
    processing := "Self-petition possible. Extremely high approval probability." }

/-- OUTCOME 2: Strong EB-1A, 5-6 criteria (zz.py lines 134-153). -/
def outcome2VeryStrongA (n : Nat) : Result :=
  { category := "EB-1A"
    status := "‚úÖ VERY STRONG"
    score := toString n ++ "/10"
    color := "#228B22"
    title := "Extraordinary Ability - Very Strong Profile"
    details := "You meet " ++ toString n ++ " of 10 EB-1A criteria (only 3 required). This is a very strong profile with substantial evidence of extraordinary ability. You significantly exceed minimum requirements."
    next_steps := [
      "Document all criteria with strong evidence",
      "Obtain 5-8 expert opinion letters from field leaders",
      "Prepare comprehensive CV highlighting major achievements",
      "Compile evidence of sustained acclaim and impact",
      "Gather media coverage and recognition documentation",
      "Work with immigration attorney for strategic petition",
      "Consider self-petition for faster processing"]
    strength := "VERY STRONG"
    processing := "Self-petition recommended. Very high approval rate." }

/-- OUTCOME 3: Solid EB-1A, 3-4 criteria (zz.py lines 156-175). -/
def outcome3QualifiedA (n : Nat) : Result :=
  { category := "EB-1A"
    status := "‚úÖ QUALIFIED"
    score := toString n ++ "/10"
    color := "#32CD32"
    title := "Extraordinary Ability - Meets Requirements"
    details := "You meet " ++ toString n ++ " of 10 EB-1A criteria (3 required). You meet the basic requirements for EB-1A. Success depends heavily on the quality and strength of your documentation."
    next_steps := [
      "Focus on quality documentation for all criteria",
      "Obtain 4-6 expert opinion letters from recognized experts",
      "Prepare detailed evidence packages for each criterion",
      "Document sustained acclaim over time",
      "Review criteria you might partially meet for additional evidence",
      "Consult attorney to assess documentation strength",
      "Consider whether criteria meet \"extraordinary ability\" standard"]
    strength := "QUALIFIED"
    processing := "Self-petition possible. Approval depends on evidence quality." }

/-- OUTCOME 4: Perfect EB-1B (zz.py lines 178-197). -/
def outcome4ExceptionalB (n : Nat) : Result :=
  { category := "EB-1B"
    status := "‚úÖ EXCEPTIONAL"
    score := toString n ++ "/6"
    color := "#006400"
    title := "Outstanding Researcher/Professor - Exceptional"
    details := "You meet " ++ toString n ++ " of 6 EB-1B criteria (only 2 required) plus all experience and job offer requirements. This is an outstanding academic/research profile."
    next_steps := [
      "Secure formal permanent job offer letter on letterhead",
      "Document 3+ years teaching/research experience clearly",
      "Compile comprehensive research achievements portfolio",
      "Obtain letters from 5-7 independent experts in your field",
      "Prepare citation reports and impact metrics",
      "Work closely with employer and attorney for petition",
      "Prepare detailed description of research contributions"]
    strength := "EXCEPTIONAL"
    processing := "Employer-sponsored petition. Extremely high approval rate." }

/-- OUTCOME 5: Strong EB-1B (zz.py lines 200-219). -/
def outcome5VeryStrongB (n : Nat) : Result :=
  { category := "EB-1B"
    status := "‚úÖ VERY STRONG"
    score := toString n ++ "/6"
    color := "#228B22"
    title := "Outstanding Researcher/Professor - Very Strong"
    details := "You meet " ++ toString n ++ " of 6 EB-1B criteria (only 2 required) plus experience and job offer. This is a very strong academic profile."
    next_steps := [
      "Obtain formal permanent position offer letter",
      "Verify and document 3+ years experience thoroughly",
      "Compile all publications and research documentation",
      "Obtain letters from 4-6 independent field experts",
      "Document impact of research contributions",
      "Coordinate with employer for petition sponsorship",
      "Prepare comprehensive evidence packages"]
    strength := "VERY STRONG"
    processing := "Employer-sponsored petition. Very high approval rate." }

/-- OUTCOME 6: Good EB-1B (zz.py lines 222-241). -/
def outcome6QualifiedB (n : Nat) : Result :=
  { category := "EB-1B"
    status := "‚úÖ QUALIFIED"
    score := toString n ++ "/6"
    color := "#32CD32"
    title := "Outstanding Researcher/Professor - Meets Requirements"
    details := "You meet " ++ toString n ++ " of 6 EB-1B criteria (2 required) with required experience and job offer. You meet the basic EB-1B requirements."
    next_steps := [
      "Ensure job offer is for permanent research/teaching position",
      "Verify 3+ years experience is properly documented",
      "Gather strong evidence for all criteria met",
      "Obtain letters from 3-5 independent experts",
      "Coordinate closely with employer for petition",
      "Consult attorney for petition strategy and documentation",
      "Ensure research contributions are well-documented"]
    strength := "QUALIFIED"
    processing := "Employer-sponsored petition. Good approval probability." }

/-- OUTCOME 7: Perfect EB-1C (zz.py lines 244-263). -/
def outcome7QualifiedC : Result :=
  { category := "EB-1C"
    status := "‚úÖ QUALIFIED"
    score := "Met"
    color := "#32CD32"
    title := "Multinational Manager/Executive - Qualified"
    details := "You meet all EB-1C requirements: 1+ year managerial/executive experience abroad with transfer to US affiliate/parent/subsidiary in similar role. This is the most straightforward EB-1 path for qualifying executives."
    next_steps := [
      "Document 1+ year continuous managerial employment abroad",
      "Verify US position is also managerial/executive level",
      "Confirm parent/subsidiary/affiliate corporate relationship",
      "Prepare organizational charts for foreign and US entities",
      "Document your supervisory and decision-making authority",
      "Work with employer and attorney for petition preparation",
      "Gather evidence of companies qualifying relationship"]
    strength := "QUALIFIED"
    processing := "Employer-sponsored petition. Standard approval rate for qualifying cases." }

/-- OUTCOME 8: EB-1B missing experience (zz.py lines 266-285). -/
def outcome8NeedExperience (n : Nat) : Result :=
  { category := "EB-1B"
    status := "\uF8FFüü° NEEDS EXPERIENCE"
    score := toString n ++ "/6"
    color := "#FF8C00"
    title := "Outstanding Researcher - Need 3 Years Experience"
    details := "You meet " ++ toString n ++ " of 6 EB-1B criteria (2 required) and have a job offer, but lack the required 3 years of research/teaching experience. Once you gain sufficient experience, you should qualify."
    next_steps := [
      "Continue building research/teaching experience to reach 3 years",
      "Maintain job offer or secure new offer when eligible",
      "Continue strengthening research profile during waiting period",
      "Add publications and research contributions",
      "Build citation count and impact metrics",
      "Revisit EB-1B eligibility once 3-year mark is reached",
      "Consider EB-2 or EB-3 as interim pathways"]
    strength := "NEEDS EXPERIENCE"
    processing := "Not yet eligible. Revisit after gaining required experience." }

/-- OUTCOME 9: EB-1B missing job offer (zz.py lines 288-307). -/
def outcome9NeedOffer (n : Nat) : Result :=
  { category := "EB-1B"
    status := "\uF8FFüü° NEEDS JOB OFFER"
    score := toString n ++ "/6"
    color := "#FF8C00"
    title := "Outstanding Researcher - Need Permanent Job Offer"
    details := "You meet " ++ toString n ++ " of 6 EB-1B criteria (2 required) and have 3+ years experience, but need a permanent research/teaching position offer from a US university or research institution."
    next_steps := [
      "Actively seek permanent research/teaching positions in US",
      "Apply to universities and research institutions",
      "Leverage your research profile and publications",
      "Network at academic conferences and institutions",
      "Once offer secured, proceed with EB-1B petition",
      "Consider EB-1A as alternative if outstanding achievements",
      "Maintain and strengthen research credentials during search"]
    strength := "NEEDS JOB OFFER"
    processing := "Not yet eligible. Secure permanent position offer first." }

/-- OUTCOME 10: EB-1B one criterion short (zz.py lines 310-330). -/
def outcome10OneShortB (n : Nat) : Result :=
  { category := "EB-1B"
    status := "\uF8FFüü° ONE CRITERION SHORT"
    score := toString n ++ "/6"
    color := "#FF8C00"
    title := "Outstanding Researcher - Need One More Criterion"
    details := "You have experience and job offer but meet only " ++ toString n ++ " of 6 EB-1B criteria (2 required). You need to strengthen your profile in one more area to qualify."
    next_steps := [
      "Review all 6 EB-1B criteria carefully for partial matches",
      "Focus on achieving one additional criterion quickly",
      "Publish additional articles in peer-reviewed journals",
      "Seek peer review opportunities in your field",
      "Apply for academic awards and recognition",
      "Join prestigious professional organizations",
      "Consult attorney to assess borderline criteria",
      "Consider EB-2 NIW as backup option"]
    strength := "BORDERLINE"
    processing := "Not currently eligible. Strengthen profile before filing." }

/-- OUTCOME 11: EB-1A borderline, 2 criteria (zz.py lines 333-355). -/
def outcome11OneShortA (n : Nat) : Result :=
  { category := "EB-1A"
    status := "\uF8FFüü° ONE CRITERION SHORT"
    score := toString n ++ "/10"
    color := "#FF8C00"
    title := "Extraordinary Ability - Need One More Criterion"
    details := "You meet " ++ toString n ++ " of 10 EB-1A criteria but need 3 minimum. You are very close to qualifying. With focused effort on one additional criterion, you could become eligible."
    next_steps := [
      "Review all 10 criteria carefully for partial matches",
      "Focus on achieving one additional criterion",
      "Pursue awards and recognition in your field",
      "Seek judging/peer review opportunities",
      "Increase media coverage of your work",
      "Join organizations requiring outstanding achievements",
      "Document high salary if applicable",
      "Consult attorney to assess marginal criteria",
      "Consider EB-2 NIW as viable alternative",
      "Revisit EB-1A in 6-12 months"]
    strength := "BORDERLINE"
    processing := "Not currently eligible. One more criterion needed." }

/-- The `paths` list built inside OUTCOME 12 (zz.py lines 359-363). -/
def outcome12Paths (nA nB : Nat) : List String :=
  (if 1 ≤ nA then ["EB-1A (" ++ toString nA ++ "/10)"] else []) ++
  (if 1 ≤ nB then ["EB-1B (" ++ toString nB ++ "/6)"] else [])

/-- OUTCOME 12: dual potential (zz.py lines 358-385). -/
def outcome12Dual (nA nB : Nat) : Result :=
  { category := "EB-1A/EB-1B"
    status := "\uF8FFüü° POTENTIAL"
    score := toString (max nA nB) ++ " criteria"
    color := "#FFA500"
    title := "Multiple EB-1 Pathways Possible - Build Profile"
    details := "You show potential for multiple EB-1 pathways: " ++ String.intercalate ", " (outcome12Paths nA nB) ++ ". However, you need significantly more achievements to qualify for either category."
    next_steps := [
      "Choose strategic path: Academic (EB-1B) or General (EB-1A)",
      "For EB-1A: Need 2 more criteria from 10 available",
      "For EB-1B: Need qualifying criteria + experience + offer",
      "Publish in top-tier journals and conferences",
      "Build citation count and research impact",
      "Pursue awards, media coverage, and recognition",
      "Seek peer review and judging opportunities",
      "Consider EB-2 NIW as more realistic current option",
      "Revisit EB-1 eligibility in 1-2 years"]
    strength := "DEVELOPING"
    processing := "Not currently eligible. Significant profile building needed." }

/-- OUTCOME 13: weak profile, 1 criterion only (zz.py lines 388-409). -/
def outcome13Weak : Result :=
  { category := "EB-1"
    status := "\uF8FFüü† WEAK PROFILE"
    score := "1 criterion met"
    color := "#FF6347"
    title := "Not Currently Qualified - Significant Development Needed"
    details := "You meet only 1 EB-1 criterion. EB-1 requires substantially more achievements and recognition. You need significant career development to become competitive for this category."
    next_steps := [
      "Focus on long-term career development (2-3 years)",
      "Build strong publication record in respected venues",
      "Pursue multiple forms of recognition and awards",
      "Develop leadership roles in professional organizations",
      "Seek opportunities for media coverage and speaking",
      "Build citation count and measurable impact",
      "Consider EB-2 or EB-3 as more appropriate pathways",
      "Revisit EB-1 after substantial achievements",
      "Work with career mentor to build profile strategically"]
    strength := "WEAK"
    processing := "Not eligible. Consider EB-2/EB-3 alternatives." }

/-- OUTCOME 14: partial EB-1C only (zz.py lines 416-434). -/
def outcome14PartialC : Result :=
  { category := "EB-1C"
    status := "\uF8FFüü° PARTIAL EB-1C"
    score := "Incomplete"
    color := "#FF8C00"
    title := "Multinational Executive - Incomplete Requirements"
    details := "You have some managerial/executive experience but do not meet all EB-1C requirements. EB-1A and EB-1B are not viable based on your profile."
    next_steps := [
      "Verify you have 1+ year managerial role with foreign entity",
      "Ensure US transfer is to parent/subsidiary/affiliate company",
      "Confirm US position is also managerial/executive level",
      "Once all requirements met, EB-1C is possible",
      "Otherwise, consider EB-2 or EB-3 categories",
      "If not in managerial track, focus on EB-2 NIW",
      "Consult attorney for alternative pathways"]
    strength := "INCOMPLETE"
    processing := "Not fully eligible. Complete all EB-1C requirements." }

/-- OUTCOME 15: not eligible, the final unconditional return
(zz.py lines 437-457). -/
def outcome15NotEligible : Result :=
  { category := "EB-1"
    status := "‚ùå NOT ELIGIBLE"
    score := "0 criteria"
    color := "#DC143C"
    title := "Not Qualified for EB-1 - Consider Alternative Categories"
    details := "Your current profile does not meet EB-1 requirements in any subcategory. EB-1 is the most selective employment-based category, reserved for those with extraordinary ability, outstanding research credentials, or multinational executive experience."
    next_steps := [
      "EB-1 is not appropriate at this career stage",
      "Focus on EB-2 NIW (National Interest Waiver) pathway",
      "EB-2 requires advanced degree + exceptional ability",
      "EB-3 is available for skilled workers and professionals",
      "Build career achievements for future EB-1 consideration",
      "Develop publication record and professional recognition",
      "Join professional organizations and seek leadership roles",
      "Consult attorney for EB-2/EB-3 evaluation",
      "Revisit EB-1 after 3-5 years of achievement building"]
    strength := "NOT ELIGIBLE"
    processing := "EB-1 not viable. Pursue EB-2 or EB-3 categories." }

/-- Body of `check_eb1_eligibility` (zz.py lines 42-457): a sequence of
conditional returns, evaluated top to bottom; the final return is
unconditional.  Falling off the end of a Python function would yield
`None`, hence the `Option` result; since the last return has no guard,
the function in fact always produces a record. -/
def check_eb1_eligibility (c : CriteriaData) : Option Result :=
  if c.major_award.getD false then
    some outcomeMajorAward
  else if 7 ≤ eb1a_criteria_met c then
    some (outcome1ExceptionalA (eb1a_criteria_met c))
  else if 5 ≤ eb1a_criteria_met c then
    some (outcome2VeryStrongA (eb1a_criteria_met c))
  else if 3 ≤ eb1a_criteria_met c then
    some (outcome3QualifiedA (eb1a_criteria_met c))
  else if eb1b_eligible c ∧ 5 ≤ eb1b_criteria_met c then
    some (outcome4ExceptionalB (eb1b_criteria_met c))
  else if eb1b_eligible c ∧ 3 ≤ eb1b_criteria_met c then
    some (outcome5VeryStrongB (eb1b_criteria_met c))
  else if eb1b_eligible c then
    some (outcome6QualifiedB (eb1b_criteria_met c))
  else if eb1c_eligible c then
    some outcome7QualifiedC
  else if 2 ≤ eb1b_criteria_met c ∧ c.offer = some "yes" ∧ c.experience ≠ some "3_years" then
    some (outcome8NeedExperience (eb1b_criteria_met c))
  else if 2 ≤ eb1b_criteria_met c ∧ c.experience = some "3_years" ∧ c.offer ≠ some "yes" then
    some (outcome9NeedOffer (eb1b_criteria_met c))
  else if has_eb1b_basics c ∧ eb1b_criteria_met c = 1 then
    some (outcome10OneShortB (eb1b_criteria_met c))
  else if eb1a_criteria_met c = 2 then
    some (outcome11OneShortA (eb1a_criteria_met c))
  else if eb1a_criteria_met c = 1 ∧ 1 ≤ eb1b_criteria_met c then
    some (outcome12Dual (eb1a_criteria_met c) (eb1b_criteria_met c))
  else if eb1a_criteria_met c = 1 ∨ eb1b_criteria_met c = 1 then
    some outcome13Weak
  else if eb1a_criteria_met c = 0 ∧ eb1b_criteria_met c = 0 ∧ partial_c c ∧ ¬ eb1c_eligible c then
    some outcome14PartialC
  else
    some outcome15NotEligible

/-- Consolidation step from `main` (zz.py lines 712-716): before the core
logic runs, the canonical `lesser_awards` and `membership` keys are set
to the Python `or` of their EB-1A channel and their EB-1B channel
(`lesser_awards_b`, `membership_b`), each read with default `False`. -/
def consolidate (c : CriteriaData) : CriteriaData :=
  { c with
    lesser_awards := some (c.lesser_awards.getD false || c.lesser_awards_b.getD false)
    membership := some (c.membership.getD false || c.membership_b.getD false) }

/-- One step of Python `str.replace` over character lists, with explicit
fuel (the pattern is never empty in the code, so fuel equal to the
length of the subject string suffices). -/
def replaceFuel (pat rep : List Char) : Nat → List Char → List Char
  | 0, s => s
  | _ + 1, [] => []
  | fuel + 1, ch :: t =>
    if pat.isPrefixOf (ch :: t) then
      rep ++ replaceFuel pat rep fuel ((ch :: t).drop pat.length)
    else
      ch :: replaceFuel pat rep fuel t

/-- Python `str.replace(pat, rep)` for a non-empty pattern. -/
def pyReplace (s pat rep : String) : String :=
  String.mk (replaceFuel pat.toList rep.toList s.toList.length s.toList)

/-- Python `str.strip()`: remove leading and trailing whitespace. -/
def pyStrip (s : String) : String :=
  String.mk (((s.toList.dropWhile Char.isWhitespace).reverse.dropWhile Char.isWhitespace).reverse)

/-- Status field of the structured JSON report (zz.py line 487):
`result['status']` with the three glyphs removed, then stripped. -/
def jsonStatus (r : Result) : String :=
  pyStrip (pyReplace (pyReplace (pyReplace r.status "‚úÖ" "") "\uF8FFüü°" "") "‚ùå" "")

/-- Category field of the structured JSON report (zz.py line 488):
`result['category']` with the three category glyphs removed, then
stripped. -/
def jsonCategory (r : Result) : String :=
  pyStrip (pyReplace (pyReplace (pyReplace r.category "\uF8FFüåü" "") "\uF8FFüî¨" "") "\uF8FFüè¢" "")

/-- Per attribute display value of the structured JSON report
(zz.py lines 473-480). -/
def jsonDisplayValue (key : String) (value : PyVal) : String :=
  if key = "experience" then
    if value = .pyStr "3_years" then "3+ years" else "Less than 3 years"
  else if value = .pyBool true ∨ value = .pyStr "yes" then "Yes (‚úÖ)"
  else if value = .pyBool false ∨ value = .pyStr "no" then "No (‚ùå)"
  else pyStrOf value

/-- Per attribute display answer of the Markdown report
(zz.py lines 533-543); the answer is `criteria_data.get(key)`, which is
`None` when the key is absent. -/
def markdownDisplayAnswer (key : String) (answer : PyVal) : String :=
  if key = "experience" then
    if answer = .pyStr "3_years" then "3+ years" else "Less than 3 years"
  else if answer = .pyBool true ∨ answer = .pyStr "yes" then "‚úÖ YES"
  else if answer = .pyBool false ∨ answer = .pyStr "no" then "‚ùå NO"
  else pyStrOf answer

/-- The nine EB-1A boolean achievement flags counted by
`eb1a_criteria_met` (all category-A flags except `major_award`). -/
inductive AFlag where
  | lesser_awards | membership | publications | judging
  | original_contributions | authorship | performances
  | high_salary | commercial_success
deriving DecidableEq

/-- Value of a category-A flag as the classifier reads it
(`get(key, False)`). -/
def getAFlag (c : CriteriaData) : AFlag → Bool
  | .lesser_awards => c.lesser_awards.getD false
  | .membership => c.membership.getD false
  | .publications => c.publications.getD false
  | .judging => c.judging.getD false
  | .original_contributions => c.original_contributions.getD false
  | .authorship => c.authorship.getD false
  | .performances => c.performances.getD false
  | .high_salary => c.high_salary.getD false
  | .commercial_success => c.commercial_success.getD false

/-- Set one category-A flag to true, holding every other attribute
fixed. -/
def setAFlag (c : CriteriaData) : AFlag → CriteriaData
  | .lesser_awards => { c with lesser_awards := some true }
  | .membership => { c with membership := some true }
  | .publications => { c with publications := some true }
  | .judging => { c with judging := some true }
  | .original_contributions => { c with original_contributions := some true }
  | .authorship => { c with authorship := some true }
  | .performances => { c with performances := some true }
  | .high_salary => { c with high_salary := some true }
  | .commercial_success => { c with commercial_success := some true }

/-- Rank of the category-A bands among the outcome records: 4 for the
exceptional band (major award override or 7+ criteria), 3 for
very strong, 2 for qualified, 1 for one criterion short; `none` when the
record is not a category-A band outcome. -/
def bandA (r : Result) : Option Nat :=
  if r.category = "EB-1A" then
    if r.strength = "EXCEPTIONAL" then some 4
    else if r.strength = "VERY STRONG" then some 3
    else if r.strength = "QUALIFIED" then some 2
    else if r.strength = "BORDERLINE" then some 1
    else none
  else none

@[simp] lemma b2n_true : b2n true = 1 := rfl

@[simp] lemma b2n_false : b2n false = 0 := rfl

@[simp] lemma bandA_outcomeMajorAward : bandA outcomeMajorAward = some 4 := rfl

@[simp] lemma bandA_outcome1 (n : Nat) : bandA (outcome1ExceptionalA n) = some 4 := rfl

@[simp] lemma bandA_outcome2 (n : Nat) : bandA (outcome2VeryStrongA n) = some 3 := rfl

@[simp] lemma bandA_outcome3 (n : Nat) : bandA (outcome3QualifiedA n) = some 2 := rfl

@[simp] lemma bandA_outcome4 (n : Nat) : bandA (outcome4ExceptionalB n) = none := rfl

@[simp] lemma bandA_outcome5 (n : Nat) : bandA (outcome5VeryStrongB n) = none := rfl

@[simp] lemma bandA_outcome6 (n : Nat) : bandA (outcome6QualifiedB n) = none := rfl

@[simp] lemma bandA_outcome7 : bandA outcome7QualifiedC = none := rfl

@[simp] lemma bandA_outcome8 (n : Nat) : bandA (outcome8NeedExperience n) = none := rfl

@[simp] lemma bandA_outcome9 (n : Nat) : bandA (outcome9NeedOffer n) = none := rfl

@[simp] lemma bandA_outcome10 (n : Nat) : bandA (outcome10OneShortB n) = none := rfl

@[simp] lemma bandA_outcome11 (n : Nat) : bandA (outcome11OneShortA n) = some 1 := rfl

@[simp] lemma bandA_outcome12 (nA nB : Nat) : bandA (outcome12Dual nA nB) = none := rfl

@[simp] lemma bandA_outcome13 : bandA outcome13Weak = none := rfl

@[simp] lemma bandA_outcome14 : bandA outcome14PartialC = none := rfl

@[simp] lemma bandA_outcome15 : bandA outcome15NotEligible = none := rfl

@[simp] lemma status_outcomeMajorAward : (outcomeMajorAward).status = "‚úÖ HIGHLY LIKELY" := rfl

@[simp] lemma status_outcome1ExceptionalA (n : Nat) : (outcome1ExceptionalA n).status = "‚úÖ EXCEPTIONAL" := rfl

@[simp] lemma status_outcome2VeryStrongA (n : Nat) : (outcome2VeryStrongA n).status = "‚úÖ VERY STRONG" := rfl

@[simp] lemma status_outcome3QualifiedA (n : Nat) : (outcome3QualifiedA n).status = "‚úÖ QUALIFIED" := rfl

@[simp] lemma status_outcome4ExceptionalB (n : Nat) : (outcome4ExceptionalB n).status = "‚úÖ EXCEPTIONAL" := rfl

@[simp] lemma status_outcome5VeryStrongB (n : Nat) : (outcome5VeryStrongB n).status = "‚úÖ VERY STRONG" := rfl

@[simp] lemma status_outcome6QualifiedB (n : Nat) : (outcome6QualifiedB n).status = "‚úÖ QUALIFIED" := rfl

@[simp] lemma status_outcome7QualifiedC : (outcome7QualifiedC).status = "‚úÖ QUALIFIED" := rfl

@[simp] lemma status_outcome8NeedExperience (n : Nat) : (outcome8NeedExperience n).status = "\uF8FFüü° NEEDS EXPERIENCE" := rfl

@[simp] lemma status_outcome9NeedOffer (n : Nat) : (outcome9NeedOffer n).status = "\uF8FFüü° NEEDS JOB OFFER" := rfl

@[simp] lemma status_outcome10OneShortB (n : Nat) : (outcome10OneShortB n).status = "\uF8FFüü° ONE CRITERION SHORT" := rfl

@[simp] lemma status_outcome11OneShortA (n : Nat) : (outcome11OneShortA n).status = "\uF8FFüü° ONE CRITERION SHORT" := rfl

@[simp] lemma status_outcome12Dual (nA nB : Nat) : (outcome12Dual nA nB).status = "\uF8FFüü° POTENTIAL" := rfl

@[simp] lemma status_outcome13Weak : (outcome13Weak).status = "\uF8FFüü† WEAK PROFILE" := rfl

@[simp] lemma status_outcome14PartialC : (outcome14PartialC).status = "\uF8FFüü° PARTIAL EB-1C" := rfl

@[simp] lemma status_outcome15NotEligible : (outcome15NotEligible).status = "‚ùå NOT ELIGIBLE" := rfl

/-- The band that the pure countA thresholds select: 4 at 7+, 3 at 5-6,
2 at 3-4, 1 at 2 or below. -/
def bandOfCountA (n : Nat) : Nat :=
  if 7 ≤ n then 4 else if 5 ≤ n then 3 else if 3 ≤ n then 2 else 1

lemma bandOfCountA_mono {m n : Nat} (h : m ≤ n) : bandOfCountA m ≤ bandOfCountA n := by
  unfold bandOfCountA
  split_ifs <;> omega

/-- Exhaustive case analysis of the conditional-return chain of
`check_eb1_eligibility`: exactly one rule fires, namely the first
whose guard holds, with every earlier guard false. -/
lemma check_rule_cases (c : CriteriaData) :
    ((c.major_award.getD false = true) ∧
      check_eb1_eligibility c = some (outcomeMajorAward)) ∨
    (¬(c.major_award.getD false = true) ∧
      (7 ≤ eb1a_criteria_met c) ∧
      check_eb1_eligibility c = some (outcome1ExceptionalA (eb1a_criteria_met c))) ∨
    (¬(c.major_award.getD false = true) ∧
      ¬(7 ≤ eb1a_criteria_met c) ∧
      (5 ≤ eb1a_criteria_met c) ∧
      check_eb1_eligibility c = some (outcome2VeryStrongA (eb1a_criteria_met c))) ∨
    (¬(c.major_award.getD false = true) ∧
      ¬(7 ≤ eb1a_criteria_met c) ∧
      ¬(5 ≤ eb1a_criteria_met c) ∧
      (3 ≤ eb1a_criteria_met c) ∧
      check_eb1_eligibility c = some (outcome3QualifiedA (eb1a_criteria_met c))) ∨
    (¬(c.major_award.getD false = true) ∧
      ¬(7 ≤ eb1a_criteria_met c) ∧
      ¬(5 ≤ eb1a_criteria_met c) ∧
      ¬(3 ≤ eb1a_criteria_met c) ∧
      (eb1b_eligible c = true ∧ 5 ≤ eb1b_criteria_met c) ∧
      check_eb1_eligibility c = some (outcome4ExceptionalB (eb1b_criteria_met c))) ∨
    (¬(c.major_award.getD false = true) ∧
      ¬(7 ≤ eb1a_criteria_met c) ∧
      ¬(5 ≤ eb1a_criteria_met c) ∧
      ¬(3 ≤ eb1a_criteria_met c) ∧
      ¬(eb1b_eligible c = true ∧ 5 ≤ eb1b_criteria_met c) ∧
      (eb1b_eligible c = true ∧ 3 ≤ eb1b_criteria_met c) ∧
      check_eb1_eligibility c = some (outcome5VeryStrongB (eb1b_criteria_met c))) ∨
    (¬(c.major_award.getD false = true) ∧
      ¬(7 ≤ eb1a_criteria_met c) ∧
      ¬(5 ≤ eb1a_criteria_met c) ∧
      ¬(3 ≤ eb1a_criteria_met c) ∧
      ¬(eb1b_eligible c = true ∧ 5 ≤ eb1b_criteria_met c) ∧
      ¬(eb1b_eligible c = true ∧ 3 ≤ eb1b_criteria_met c) ∧
      (eb1b_eligible c = true) ∧
      check_eb1_eligibility c = some (outcome6QualifiedB (eb1b_criteria_met c))) ∨
    (¬(c.major_award.getD false = true) ∧
      ¬(7 ≤ eb1a_criteria_met c) ∧
      ¬(5 ≤ eb1a_criteria_met c) ∧
      ¬(3 ≤ eb1a_criteria_met c) ∧
      ¬(eb1b_eligible c = true ∧ 5 ≤ eb1b_criteria_met c) ∧
      ¬(eb1b_eligible c = true ∧ 3 ≤ eb1b_criteria_met c) ∧
      ¬(eb1b_eligible c = true) ∧
      (eb1c_eligible c = true) ∧
      check_eb1_eligibility c = some (outcome7QualifiedC)) ∨
    (¬(c.major_award.getD false = true) ∧
      ¬(7 ≤ eb1a_criteria_met c) ∧
      ¬(5 ≤ eb1a_criteria_met c) ∧
      ¬(3 ≤ eb1a_criteria_met c) ∧
      ¬(eb1b_eligible c = true ∧ 5 ≤ eb1b_criteria_met c) ∧
      ¬(eb1b_eligible c = true ∧ 3 ≤ eb1b_criteria_met c) ∧
      ¬(eb1b_eligible c = true) ∧
      ¬(eb1c_eligible c = true) ∧
      (2 ≤ eb1b_criteria_met c ∧ c.offer = some "yes" ∧ c.experience ≠ some "3_years") ∧
      check_eb1_eligibility c = some (outcome8NeedExperience (eb1b_criteria_met c))) ∨
    (¬(c.major_award.getD false = true) ∧
      ¬(7 ≤ eb1a_criteria_met c) ∧
      ¬(5 ≤ eb1a_criteria_met c) ∧
      ¬(3 ≤ eb1a_criteria_met c) ∧
      ¬(eb1b_eligible c = true ∧ 5 ≤ eb1b_criteria_met c) ∧
      ¬(eb1b_eligible c = true ∧ 3 ≤ eb1b_criteria_met c) ∧
      ¬(eb1b_eligible c = true) ∧
      ¬(eb1c_eligible c = true) ∧
      ¬(2 ≤ eb1b_criteria_met c ∧ c.offer = some "yes" ∧ c.experience ≠ some "3_years") ∧
      (2 ≤ eb1b_criteria_met c ∧ c.experience = some "3_years" ∧ c.offer ≠ some "yes") ∧
      check_eb1_eligibility c = some (outcome9NeedOffer (eb1b_criteria_met c))) ∨
    (¬(c.major_award.getD false = true) ∧
      ¬(7 ≤ eb1a_criteria_met c) ∧
      ¬(5 ≤ eb1a_criteria_met c) ∧
      ¬(3 ≤ eb1a_criteria_met c) ∧
      ¬(eb1b_eligible c = true ∧ 5 ≤ eb1b_criteria_met c) ∧
      ¬(eb1b_eligible c = true ∧ 3 ≤ eb1b_criteria_met c) ∧
      ¬(eb1b_eligible c = true) ∧
      ¬(eb1c_eligible c = true) ∧
      ¬(2 ≤ eb1b_criteria_met c ∧ c.offer = some "yes" ∧ c.experience ≠ some "3_years") ∧
      ¬(2 ≤ eb1b_criteria_met c ∧ c.experience = some "3_years" ∧ c.offer ≠ some "yes") ∧
      (has_eb1b_basics c = true ∧ eb1b_criteria_met c = 1) ∧
      check_eb1_eligibility c = some (outcome10OneShortB (eb1b_criteria_met c))) ∨
    (¬(c.major_award.getD false = true) ∧
      ¬(7 ≤ eb1a_criteria_met c) ∧
      ¬(5 ≤ eb1a_criteria_met c) ∧
      ¬(3 ≤ eb1a_criteria_met c) ∧
      ¬(eb1b_eligible c = true ∧ 5 ≤ eb1b_criteria_met c) ∧
      ¬(eb1b_eligible c = true ∧ 3 ≤ eb1b_criteria_met c) ∧
      ¬(eb1b_eligible c = true) ∧
      ¬(eb1c_eligible c = true) ∧
      ¬(2 ≤ eb1b_criteria_met c ∧ c.offer = some "yes" ∧ c.experience ≠ some "3_years") ∧
      ¬(2 ≤ eb1b_criteria_met c ∧ c.experience = some "3_years" ∧ c.offer ≠ some "yes") ∧
      ¬(has_eb1b_basics c = true ∧ eb1b_criteria_met c = 1) ∧
      (eb1a_criteria_met c = 2) ∧
      check_eb1_eligibility c = some (outcome11OneShortA (eb1a_criteria_met c))) ∨
    (¬(c.major_award.getD false = true) ∧
      ¬(7 ≤ eb1a_criteria_met c) ∧
      ¬(5 ≤ eb1a_criteria_met c) ∧
      ¬(3 ≤ eb1a_criteria_met c) ∧
      ¬(eb1b_eligible c = true ∧ 5 ≤ eb1b_criteria_met c) ∧
      ¬(eb1b_eligible c = true ∧ 3 ≤ eb1b_criteria_met c) ∧
      ¬(eb1b_eligible c = true) ∧
      ¬(eb1c_eligible c = true) ∧
      ¬(2 ≤ eb1b_criteria_met c ∧ c.offer = some "yes" ∧ c.experience ≠ some "3_years") ∧
      ¬(2 ≤ eb1b_criteria_met c ∧ c.experience = some "3_years" ∧ c.offer ≠ some "yes") ∧
      ¬(has_eb1b_basics c = true ∧ eb1b_criteria_met c = 1) ∧
      ¬(eb1a_criteria_met c = 2) ∧
      (eb1a_criteria_met c = 1 ∧ 1 ≤ eb1b_criteria_met c) ∧
      check_eb1_eligibility c = some (outcome12Dual (eb1a_criteria_met c) (eb1b_criteria_met c))) ∨
    (¬(c.major_award.getD false = true) ∧
      ¬(7 ≤ eb1a_criteria_met c) ∧
      ¬(5 ≤ eb1a_criteria_met c) ∧
      ¬(3 ≤ eb1a_criteria_met c) ∧
      ¬(eb1b_eligible c = true ∧ 5 ≤ eb1b_criteria_met c) ∧
      ¬(eb1b_eligible c = true ∧ 3 ≤ eb1b_criteria_met c) ∧
      ¬(eb1b_eligible c = true) ∧
      ¬(eb1c_eligible c = true) ∧
      ¬(2 ≤ eb1b_criteria_met c ∧ c.offer = some "yes" ∧ c.experience ≠ some "3_years") ∧
      ¬(2 ≤ eb1b_criteria_met c ∧ c.experience = some "3_years" ∧ c.offer ≠ some "yes") ∧
      ¬(has_eb1b_basics c = true ∧ eb1b_criteria_met c = 1) ∧
      ¬(eb1a_criteria_met c = 2) ∧
      ¬(eb1a_criteria_met c = 1 ∧ 1 ≤ eb1b_criteria_met c) ∧
      (eb1a_criteria_met c = 1 ∨ eb1b_criteria_met c = 1) ∧
      check_eb1_eligibility c = some (outcome13Weak)) ∨
    (¬(c.major_award.getD false = true) ∧
      ¬(7 ≤ eb1a_criteria_met c) ∧
      ¬(5 ≤ eb1a_criteria_met c) ∧
      ¬(3 ≤ eb1a_criteria_met c) ∧
      ¬(eb1b_eligible c = true ∧ 5 ≤ eb1b_criteria_met c) ∧
      ¬(eb1b_eligible c = true ∧ 3 ≤ eb1b_criteria_met c) ∧
      ¬(eb1b_eligible c = true) ∧
      ¬(eb1c_eligible c = true) ∧
      ¬(2 ≤ eb1b_criteria_met c ∧ c.offer = some "yes" ∧ c.experience ≠ some "3_years") ∧
      ¬(2 ≤ eb1b_criteria_met c ∧ c.experience = some "3_years" ∧ c.offer ≠ some "yes") ∧
      ¬(has_eb1b_basics c = true ∧ eb1b_criteria_met c = 1) ∧
      ¬(eb1a_criteria_met c = 2) ∧
      ¬(eb1a_criteria_met c = 1 ∧ 1 ≤ eb1b_criteria_met c) ∧
      ¬(eb1a_criteria_met c = 1 ∨ eb1b_criteria_met c = 1) ∧
      (eb1a_criteria_met c = 0 ∧ eb1b_criteria_met c = 0 ∧ partial_c c = true ∧ ¬(eb1c_eligible c = true)) ∧
      check_eb1_eligibility c = some (outcome14PartialC)) ∨
    (¬(c.major_award.getD false = true) ∧
      ¬(7 ≤ eb1a_criteria_met c) ∧
      ¬(5 ≤ eb1a_criteria_met c) ∧
      ¬(3 ≤ eb1a_criteria_met c) ∧
      ¬(eb1b_eligible c = true ∧ 5 ≤ eb1b_criteria_met c) ∧
      ¬(eb1b_eligible c = true ∧ 3 ≤ eb1b_criteria_met c) ∧
      ¬(eb1b_eligible c = true) ∧
      ¬(eb1c_eligible c = true) ∧
      ¬(2 ≤ eb1b_criteria_met c ∧ c.offer = some "yes" ∧ c.experience ≠ some "3_years") ∧
      ¬(2 ≤ eb1b_criteria_met c ∧ c.experience = some "3_years" ∧ c.offer ≠ some "yes") ∧
      ¬(has_eb1b_basics c = true ∧ eb1b_criteria_met c = 1) ∧
      ¬(eb1a_criteria_met c = 2) ∧
      ¬(eb1a_criteria_met c = 1 ∧ 1 ≤ eb1b_criteria_met c) ∧
      ¬(eb1a_criteria_met c = 1 ∨ eb1b_criteria_met c = 1) ∧
      ¬(eb1a_criteria_met c = 0 ∧ eb1b_criteria_met c = 0 ∧ partial_c c = true ∧ ¬(eb1c_eligible c = true)) ∧
      check_eb1_eligibility c = some (outcome15NotEligible)) := by
  by_cases g1 : c.major_award.getD false = true
  · refine Or.inl ⟨g1, ?_⟩
    unfold check_eb1_eligibility
    rw [if_pos g1]
  · by_cases g2 : 7 ≤ eb1a_criteria_met c
    · refine Or.inr (Or.inl ⟨g1, g2, ?_⟩)
      unfold check_eb1_eligibility
      rw [if_neg g1, if_pos g2]
    · by_cases g3 : 5 ≤ eb1a_criteria_met c
      · refine Or.inr (Or.inr (Or.inl ⟨g1, g2, g3, ?_⟩))
        unfold check_eb1_eligibility
        rw [if_neg g1, if_neg g2, if_pos g3]
      · by_cases g4 : 3 ≤ eb1a_criteria_met c
        · refine Or.inr (Or.inr (Or.inr (Or.inl ⟨g1, g2, g3, g4, ?_⟩)))
          unfold check_eb1_eligibility
          rw [if_neg g1, if_neg g2, if_neg g3, if_pos g4]
        · by_cases g5 : eb1b_eligible c = true ∧ 5 ≤ eb1b_criteria_met c
          · refine Or.inr (Or.inr (Or.inr (Or.inr (Or.inl ⟨g1, g2, g3, g4, g5, ?_⟩))))
            unfold check_eb1_eligibility
            rw [if_neg g1, if_neg g2, if_neg g3, if_neg g4, if_pos g5]
          · by_cases g6 : eb1b_eligible c = true ∧ 3 ≤ eb1b_criteria_met c
            · refine Or.inr (Or.inr (Or.inr (Or.inr (Or.inr (Or.inl ⟨g1, g2, g3, g4, g5, g6, ?_⟩)))))
              unfold check_eb1_eligibility
              rw [if_neg g1, if_neg g2, if_neg g3, if_neg g4, if_neg g5, if_pos g6]
            · by_cases g7 : eb1b_eligible c = true
              · refine Or.inr (Or.inr (Or.inr (Or.inr (Or.inr (Or.inr (Or.inl ⟨g1, g2, g3, g4, g5, g6, g7, ?_⟩))))))
                unfold check_eb1_eligibility
                rw [if_neg g1, if_neg g2, if_neg g3, if_neg g4, if_neg g5, if_neg g6, if_pos g7]
              · by_cases g8 : eb1c_eligible c = true
                · refine Or.inr (Or.inr (Or.inr (Or.inr (Or.inr (Or.inr (Or.inr (Or.inl ⟨g1, g2, g3, g4, g5, g6, g7, g8, ?_⟩)))))))
                  unfold check_eb1_eligibility
                  rw [if_neg g1, if_neg g2, if_neg g3, if_neg g4, if_neg g5, if_neg g6, if_neg g7, if_pos g8]
                · by_cases g9 : 2 ≤ eb1b_criteria_met c ∧ c.offer = some "yes" ∧ c.experience ≠ some "3_years"
                  · refine Or.inr (Or.inr (Or.inr (Or.inr (Or.inr (Or.inr (Or.inr (Or.inr (Or.inl ⟨g1, g2, g3, g4, g5, g6, g7, g8, g9, ?_⟩))))))))
                    unfold check_eb1_eligibility
                    rw [if_neg g1, if_neg g2, if_neg g3, if_neg g4, if_neg g5, if_neg g6, if_neg g7, if_neg g8, if_pos g9]
                  · by_cases g10 : 2 ≤ eb1b_criteria_met c ∧ c.experience = some "3_years" ∧ c.offer ≠ some "yes"
                    · refine Or.inr (Or.inr (Or.inr (Or.inr (Or.inr (Or.inr (Or.inr (Or.inr (Or.inr (Or.inl ⟨g1, g2, g3, g4, g5, g6, g7, g8, g9, g10, ?_⟩)))))))))
                      unfold check_eb1_eligibility
                      rw [if_neg g1, if_neg g2, if_neg g3, if_neg g4, if_neg g5, if_neg g6, if_neg g7, if_neg g8, if_neg g9, if_pos g10]
                    · by_cases g11 : has_eb1b_basics c = true ∧ eb1b_criteria_met c = 1
                      · refine Or.inr (Or.inr (Or.inr (Or.inr (Or.inr (Or.inr (Or.inr (Or.inr (Or.inr (Or.inr (Or.inl ⟨g1, g2, g3, g4, g5, g6, g7, g8, g9, g10, g11, ?_⟩))))))))))
                        unfold check_eb1_eligibility
                        rw [if_neg g1, if_neg g2, if_neg g3, if_neg g4, if_neg g5, if_neg g6, if_neg g7, if_neg g8, if_neg g9, if_neg g10, if_pos g11]
                      · by_cases g12 : eb1a_criteria_met c = 2
                        · refine Or.inr (Or.inr (Or.inr (Or.inr (Or.inr (Or.inr (Or.inr (Or.inr (Or.inr (Or.inr (Or.inr (Or.inl ⟨g1, g2, g3, g4, g5, g6, g7, g8, g9, g10, g11, g12, ?_⟩)))))))))))
                          unfold check_eb1_eligibility
                          rw [if_neg g1, if_neg g2, if_neg g3, if_neg g4, if_neg g5, if_neg g6, if_neg g7, if_neg g8, if_neg g9, if_neg g10, if_neg g11, if_pos g12]
                        · by_cases g13 : eb1a_criteria_met c = 1 ∧ 1 ≤ eb1b_criteria_met c
                          · refine Or.inr (Or.inr (Or.inr (Or.inr (Or.inr (Or.inr (Or.inr (Or.inr (Or.inr (Or.inr (Or.inr (Or.inr (Or.inl ⟨g1, g2, g3, g4, g5, g6, g7, g8, g9, g10, g11, g12, g13, ?_⟩))))))))))))
                            unfold check_eb1_eligibility
                            rw [if_neg g1, if_neg g2, if_neg g3, if_neg g4, if_neg g5, if_neg g6, if_neg g7, if_neg g8, if_neg g9, if_neg g10, if_neg g11, if_neg g12, if_pos g13]
                          · by_cases g14 : eb1a_criteria_met c = 1 ∨ eb1b_criteria_met c = 1
                            · refine Or.inr (Or.inr (Or.inr (Or.inr (Or.inr (Or.inr (Or.inr (Or.inr (Or.inr (Or.inr (Or.inr (Or.inr (Or.inr (Or.inl ⟨g1, g2, g3, g4, g5, g6, g7, g8, g9, g10, g11, g12, g13, g14, ?_⟩)))))))))))))
                              unfold check_eb1_eligibility
                              rw [if_neg g1, if_neg g2, if_neg g3, if_neg g4, if_neg g5, if_neg g6, if_neg g7, if_neg g8, if_neg g9, if_neg g10, if_neg g11, if_neg g12, if_neg g13, if_pos g14]
                            · by_cases g15 : eb1a_criteria_met c = 0 ∧ eb1b_criteria_met c = 0 ∧ partial_c c = true ∧ ¬(eb1c_eligible c = true)
                              · refine Or.inr (Or.inr (Or.inr (Or.inr (Or.inr (Or.inr (Or.inr (Or.inr (Or.inr (Or.inr (Or.inr (Or.inr (Or.inr (Or.inr (Or.inl ⟨g1, g2, g3, g4, g5, g6, g7, g8, g9, g10, g11, g12, g13, g14, g15, ?_⟩))))))))))))))
                                unfold check_eb1_eligibility
                                rw [if_neg g1, if_neg g2, if_neg g3, if_neg g4, if_neg g5, if_neg g6, if_neg g7, if_neg g8, if_neg g9, if_neg g10, if_neg g11, if_neg g12, if_neg g13, if_neg g14, if_pos g15]
                              · refine Or.inr (Or.inr (Or.inr (Or.inr (Or.inr (Or.inr (Or.inr (Or.inr (Or.inr (Or.inr (Or.inr (Or.inr (Or.inr (Or.inr (Or.inr (⟨g1, g2, g3, g4, g5, g6, g7, g8, g9, g10, g11, g12, g13, g14, g15, ?_⟩)))))))))))))))
                                unfold check_eb1_eligibility
                                rw [if_neg g1, if_neg g2, if_neg g3, if_neg g4, if_neg g5, if_neg g6, if_neg g7, if_neg g8, if_neg g9, if_neg g10, if_neg g11, if_neg g12, if_neg g13, if_neg g14, if_neg g15]

lemma countA_setAFlag (c : CriteriaData) (f : AFlag) (h : getAFlag c f = false) :
    eb1a_criteria_met (setAFlag c f) = eb1a_criteria_met c + 1 := by
  cases f <;> simp only [getAFlag] at h <;>
    simp only [setAFlag, eb1a_criteria_met, h, Option.getD_some, b2n_true, b2n_false] <;>
    omega

lemma major_setAFlag (c : CriteriaData) (f : AFlag) :
    (setAFlag c f).major_award = c.major_award := by
  cases f <;> rfl

/-- Inversion of the classifier with respect to the category-A band of
the produced record. -/
lemma bandA_of_check (c : CriteriaData) (r : Result)
    (hc : check_eb1_eligibility c = some r) :
    bandA r = none ∨
    (c.major_award.getD false = true ∧ bandA r = some 4) ∨
    (¬(c.major_award.getD false = true) ∧ 3 ≤ eb1a_criteria_met c ∧
      bandA r = some (bandOfCountA (eb1a_criteria_met c))) ∨
    (¬(c.major_award.getD false = true) ∧ eb1a_criteria_met c = 2 ∧ bandA r = some 1) := by
  rcases check_rule_cases c with ⟨a1, heq⟩ | ⟨n1, a2, heq⟩ | ⟨n1, n2, a3, heq⟩ |
    ⟨n1, n2, n3, a4, heq⟩ | ⟨_, _, _, _, _, heq⟩ | ⟨_, _, _, _, _, _, heq⟩ |
    ⟨_, _, _, _, _, _, _, heq⟩ | ⟨_, _, _, _, _, _, _, _, heq⟩ |
    ⟨_, _, _, _, _, _, _, _, _, heq⟩ | ⟨_, _, _, _, _, _, _, _, _, _, heq⟩ |
    ⟨_, _, _, _, _, _, _, _, _, _, _, heq⟩ | ⟨n1, _, _, _, _, _, _, _, _, _, _, a12, heq⟩ |
    ⟨_, _, _, _, _, _, _, _, _, _, _, _, _, heq⟩ |
    ⟨_, _, _, _, _, _, _, _, _, _, _, _, _, _, heq⟩ |
    ⟨_, _, _, _, _, _, _, _, _, _, _, _, _, _, _, heq⟩ |
    ⟨_, _, _, _, _, _, _, _, _, _, _, _, _, _, _, heq⟩ <;>
      rw [hc] at heq <;> obtain rfl := Option.some.inj heq
  · exact Or.inr (Or.inl ⟨a1, by simp⟩)
  · exact Or.inr (Or.inr (Or.inl ⟨n1, by omega, by rw [bandOfCountA, if_pos a2]; simp⟩))
  · exact Or.inr (Or.inr (Or.inl ⟨n1, by omega,
      by rw [bandOfCountA, if_neg n2, if_pos a3]; simp⟩))
  · exact Or.inr (Or.inr (Or.inl ⟨n1, a4,
      by rw [bandOfCountA, if_neg n2, if_neg n3, if_pos a4]; simp⟩))
  · exact Or.inl (by simp)
  · exact Or.inl (by simp)
  · exact Or.inl (by simp)
  · exact Or.inl (by simp)
  · exact Or.inl (by simp)
  · exact Or.inl (by simp)
  · exact Or.inl (by simp)
  · exact Or.inr (Or.inr (Or.inr ⟨n1, a12, by simp⟩))
  · exact Or.inl (by simp)
  · exact Or.inl (by simp)
  · exact Or.inl (by simp)
  · exact Or.inl (by simp)

/-- C2.  For every attribute map over the 21 attributes (any subset of
keys present, absent keys defaulting), `check_eb1_eligibility` returns
exactly one outcome record: the conditional-return chain never falls
through without a match, because the final default rule is
unconditional, and the embedding is a total function (no exceptions). -/
theorem c2_classify_total (c : CriteriaData) :
    (check_eb1_eligibility c).isSome = true := by
  rcases check_rule_cases c with ⟨_, hc⟩ | ⟨_, _, hc⟩ | ⟨_, _, _, hc⟩ | ⟨_, _, _, _, hc⟩ |
    ⟨_, _, _, _, _, hc⟩ | ⟨_, _, _, _, _, _, hc⟩ | ⟨_, _, _, _, _, _, _, hc⟩ |
    ⟨_, _, _, _, _, _, _, _, hc⟩ | ⟨_, _, _, _, _, _, _, _, _, hc⟩ |
    ⟨_, _, _, _, _, _, _, _, _, _, hc⟩ | ⟨_, _, _, _, _, _, _, _, _, _, _, hc⟩ |
    ⟨_, _, _, _, _, _, _, _, _, _, _, _, hc⟩ | ⟨_, _, _, _, _, _, _, _, _, _, _, _, _, hc⟩ |
    ⟨_, _, _, _, _, _, _, _, _, _, _, _, _, _, hc⟩ |
    ⟨_, _, _, _, _, _, _, _, _, _, _, _, _, _, _, hc⟩ |
    ⟨_, _, _, _, _, _, _, _, _, _, _, _, _, _, _, hc⟩ <;> rw [hc] <;> rfl

/-- C3.  For every attribute map in which `major_award` is true, the
classifier returns the top category-A override outcome (category EB-1A,
EXCEPTIONAL strength, score 10/10), regardless of every other attribute
and counter. -/
theorem c3_major_award_override (c : CriteriaData) (h : c.major_award = some true) :
    check_eb1_eligibility c = some outcomeMajorAward ∧
    outcomeMajorAward.category = "EB-1A" ∧
    outcomeMajorAward.strength = "EXCEPTIONAL" ∧
    outcomeMajorAward.score = "10/10" := by
  have hmaj : c.major_award.getD false = true := by rw [h]; rfl
  refine ⟨?_, rfl, rfl, rfl⟩
  rcases check_rule_cases c with ⟨_, hc⟩ | h' | h' | h' | h' | h' | h' | h' | h' | h' | h' |
    h' | h' | h' | h' | h'
  · exact hc
  all_goals exact absurd hmaj h'.1

/-- Witness for C3 at a concrete input: only `major_award` set. -/
theorem c3_major_award_override_witness :
    ({ major_award := some true } : CriteriaData).major_award = some true ∧
    (check_eb1_eligibility { major_award := some true } = some outcomeMajorAward ∧
     outcomeMajorAward.category = "EB-1A" ∧
     outcomeMajorAward.strength = "EXCEPTIONAL" ∧
     outcomeMajorAward.score = "10/10") :=
  ⟨rfl, c3_major_award_override { major_award := some true } rfl⟩

/-- C9.  For every two attribute maps that agree on all keys except the
per-channel keys `lesser_awards_b` and `membership_b`, the classifier
returns identical outcome records: it reads only the canonical merged
keys and is insensitive to the per-channel keys. -/
theorem c9_channel_keys_not_read (c : CriteriaData) (v w : Option Bool) :
    check_eb1_eligibility { c with lesser_awards_b := v, membership_b := w } =
      check_eb1_eligibility c := rfl

/-- C1.  The consolidation step computes the canonical `lesser_awards`
and `membership` facts as the logical OR of their two input channels, so
entering the shared fact through either channel alone produces the same
`countA` and `countB` as entering it through both channels, and hence
the same classification outcome. -/
theorem c1_merge_is_or (c : CriteriaData) :
    ((consolidate c).lesser_awards =
       some (c.lesser_awards.getD false || c.lesser_awards_b.getD false) ∧
     (consolidate c).membership =
       some (c.membership.getD false || c.membership_b.getD false)) ∧
    (eb1a_criteria_met (consolidate { c with lesser_awards := some true, lesser_awards_b := some false }) =
       eb1a_criteria_met (consolidate { c with lesser_awards := some true, lesser_awards_b := some true }) ∧
     eb1b_criteria_met (consolidate { c with lesser_awards := some true, lesser_awards_b := some false }) =
       eb1b_criteria_met (consolidate { c with lesser_awards := some true, lesser_awards_b := some true }) ∧
     check_eb1_eligibility (consolidate { c with lesser_awards := some true, lesser_awards_b := some false }) =
       check_eb1_eligibility (consolidate { c with lesser_awards := some true, lesser_awards_b := some true })) ∧
    (eb1a_criteria_met (consolidate { c with lesser_awards := some false, lesser_awards_b := some true }) =
       eb1a_criteria_met (consolidate { c with lesser_awards := some true, lesser_awards_b := some true }) ∧
     eb1b_criteria_met (consolidate { c with lesser_awards := some false, lesser_awards_b := some true }) =
       eb1b_criteria_met (consolidate { c with lesser_awards := some true, lesser_awards_b := some true }) ∧
     check_eb1_eligibility (consolidate { c with lesser_awards := some false, lesser_awards_b := some true }) =
       check_eb1_eligibility (consolidate { c with lesser_awards := some true, lesser_awards_b := some true })) ∧
    (eb1a_criteria_met (consolidate { c with membership := some true, membership_b := some false }) =
       eb1a_criteria_met (consolidate { c with membership := some true, membership_b := some true }) ∧
     eb1b_criteria_met (consolidate { c with membership := some true, membership_b := some false }) =
       eb1b_criteria_met (consolidate { c with membership := some true, membership_b := some true }) ∧
     check_eb1_eligibility (consolidate { c with membership := some true, membership_b := some false }) =
       check_eb1_eligibility (consolidate { c with membership := some true, membership_b := some true })) ∧
    (eb1a_criteria_met (consolidate { c with membership := some false, membership_b := some true }) =
       eb1a_criteria_met (consolidate { c with membership := some true, membership_b := some true }) ∧
     eb1b_criteria_met (consolidate { c with membership := some false, membership_b := some true }) =
       eb1b_criteria_met (consolidate { c with membership := some true, membership_b := some true }) ∧
     check_eb1_eligibility (consolidate { c with membership := some false, membership_b := some true }) =
       check_eb1_eligibility (consolidate { c with membership := some true, membership_b := some true })) :=
  ⟨⟨rfl, rfl⟩, ⟨rfl, rfl, rfl⟩, ⟨rfl, rfl, rfl⟩, ⟨rfl, rfl, rfl⟩, ⟨rfl, rfl, rfl⟩⟩

lemma check_major (c : CriteriaData) (hm : c.major_award.getD false = true) :
    check_eb1_eligibility c = some outcomeMajorAward := by
  rcases check_rule_cases c with ⟨_, hc⟩ | h' | h' | h' | h' | h' | h' | h' | h' | h' | h' |
    h' | h' | h' | h' | h'
  · exact hc
  all_goals exact absurd hm h'.1

lemma check_ge3_band (c : CriteriaData) (hm : ¬(c.major_award.getD false = true))
    (h3 : 3 ≤ eb1a_criteria_met c) :
    ∃ r, check_eb1_eligibility c = some r ∧
      bandA r = some (bandOfCountA (eb1a_criteria_met c)) := by
  rcases check_rule_cases c with ⟨a1, heq⟩ | ⟨_, a2, heq⟩ | ⟨_, n2, a3, heq⟩ |
    ⟨_, n2, n3, a4, heq⟩ | h' | h' | h' | h' | h' | h' | h' | h' | h' | h' | h' | h'
  · exact absurd a1 hm
  · exact ⟨_, heq, by rw [bandOfCountA, if_pos a2]; simp⟩
  · exact ⟨_, heq, by rw [bandOfCountA, if_neg n2, if_pos a3]; simp⟩
  · exact ⟨_, heq, by rw [bandOfCountA, if_neg n2, if_neg n3, if_pos a4]; simp⟩
  all_goals exact absurd h3 h'.2.2.2.1

/-- C4.  Flipping any category-A boolean flag from false to true (holding
every other attribute fixed) increases countA by one and never moves the
outcome to a weaker category-A band; the band thresholds are inclusive
lower bounds (countA of 7 gives the exceptional band, 5 the very-strong
band, 3 the qualified band, 2 the one-criterion-short band), so a value
exactly at a threshold takes the stronger band. -/
theorem c4_countA_monotone (c : CriteriaData) (f : AFlag) (h : getAFlag c f = false) :
    eb1a_criteria_met (setAFlag c f) = eb1a_criteria_met c + 1 ∧
    (∀ r x, check_eb1_eligibility c = some r → bandA r = some x →
      ∃ r' y, check_eb1_eligibility (setAFlag c f) = some r' ∧ bandA r' = some y ∧ x ≤ y) ∧
    (¬(c.major_award.getD false = true) → 3 ≤ eb1a_criteria_met c →
      ∃ r, check_eb1_eligibility c = some r ∧
        bandA r = some (bandOfCountA (eb1a_criteria_met c))) ∧
    (¬(c.major_award.getD false = true) → eb1a_criteria_met c = 2 →
      ∀ r, check_eb1_eligibility c = some r → bandA r = some 1 ∨ bandA r = none) ∧
    bandOfCountA 7 = 4 ∧ bandOfCountA 5 = 3 ∧ bandOfCountA 3 = 2 ∧ bandOfCountA 2 = 1 := by
  have hA' := countA_setAFlag c f h
  refine ⟨hA', ?_, fun hm h3 => check_ge3_band c hm h3, ?_, by decide, by decide, by decide,
    by decide⟩
  · intro r x hr hx
    rcases bandA_of_check c r hr with h0 | ⟨g1, h4⟩ | ⟨hm, h3, hb⟩ | ⟨hm, h2, hb1⟩
    · rw [h0] at hx; cases hx
    · rw [h4] at hx
      obtain rfl : x = 4 := (Option.some.inj hx).symm
      have g1' : (setAFlag c f).major_award.getD false = true := by
        rw [major_setAFlag]; exact g1
      exact ⟨outcomeMajorAward, 4, check_major _ g1', by simp, le_refl 4⟩
    · rw [hb] at hx
      obtain rfl : x = bandOfCountA (eb1a_criteria_met c) := (Option.some.inj hx).symm
      have hm' : ¬((setAFlag c f).major_award.getD false = true) := by
        rw [major_setAFlag]; exact hm
      obtain ⟨r', hr', hb'⟩ := check_ge3_band (setAFlag c f) hm' (by omega)
      refine ⟨r', _, hr', hb', ?_⟩
      rw [hA']
      exact bandOfCountA_mono (by omega)
    · rw [hb1] at hx
      obtain rfl : x = 1 := (Option.some.inj hx).symm
      have hm' : ¬((setAFlag c f).major_award.getD false = true) := by
        rw [major_setAFlag]; exact hm
      obtain ⟨r', hr', hb'⟩ := check_ge3_band (setAFlag c f) hm' (by omega)
      refine ⟨r', _, hr', hb', ?_⟩
      rw [hA', h2]
      decide
  · intro hm h2 r hr
    rcases bandA_of_check c r hr with h0 | ⟨g1, _⟩ | ⟨_, h3, _⟩ | ⟨_, _, hb1⟩
    · exact Or.inr h0
    · exact absurd g1 hm
    · omega
    · exact Or.inl hb1

/-- Witness for C4: three flags set (countA = 3, qualified band); flipping
`performances` moves countA to 4 and the band stays at least qualified. -/
theorem c4_countA_monotone_witness :
    getAFlag { publications := some true, judging := some true, authorship := some true }
        AFlag.performances = false ∧
    eb1a_criteria_met (setAFlag
        { publications := some true, judging := some true, authorship := some true }
        AFlag.performances) =
      eb1a_criteria_met
        { publications := some true, judging := some true, authorship := some true } + 1 ∧
    (∃ r' y, check_eb1_eligibility (setAFlag
        { publications := some true, judging := some true, authorship := some true }
        AFlag.performances) = some r' ∧ bandA r' = some y ∧ 2 ≤ y) := by
  have h := c4_countA_monotone
    { publications := some true, judging := some true, authorship := some true }
    AFlag.performances rfl
  exact ⟨rfl, h.1, h.2.1 (outcome3QualifiedA 3) 2 rfl rfl⟩

/-- C5.  With `major_award` false, countA equal to 1, countB at least 1,
and no earlier rule matching (not category-A qualified or better, not
eligibleB, not eligibleC, not the blocked-B rules, not the B or A
one-criterion-short rules), the classifier returns the dual-category
developing-profile outcome, whose score reports the max of the two
counters and whose paths list both category labels with their counts;
and the generic weak-profile rule is reached only when one counter is 1
and the other is 0. -/
theorem c5_dual_profile :
    (∀ c : CriteriaData,
      c.major_award.getD false = false →
      eb1a_criteria_met c = 1 → 1 ≤ eb1b_criteria_met c →
      eb1b_eligible c = false → eb1c_eligible c = false →
      ¬(2 ≤ eb1b_criteria_met c ∧ c.offer = some "yes" ∧ c.experience ≠ some "3_years") →
      ¬(2 ≤ eb1b_criteria_met c ∧ c.experience = some "3_years" ∧ c.offer ≠ some "yes") →
      ¬(has_eb1b_basics c = true ∧ eb1b_criteria_met c = 1) →
      (check_eb1_eligibility c = some (outcome12Dual 1 (eb1b_criteria_met c)) ∧
       (outcome12Dual 1 (eb1b_criteria_met c)).score =
         toString (max 1 (eb1b_criteria_met c)) ++ " criteria" ∧
       outcome12Paths 1 (eb1b_criteria_met c) =
         ["EB-1A (1/10)", "EB-1B (" ++ toString (eb1b_criteria_met c) ++ "/6)"])) ∧
    (∀ (c : CriteriaData) (r : Result),
      check_eb1_eligibility c = some r → r = outcome13Weak →
      (eb1a_criteria_met c = 1 ∧ eb1b_criteria_met c = 0) ∨
      (eb1a_criteria_met c = 0 ∧ eb1b_criteria_met c = 1)) := by
  constructor
  · intro c hm hA hB hEB hEC h8 h9 h10
    rcases check_rule_cases c with ⟨a1, heq⟩ | ⟨_, a2, heq⟩ | ⟨_, _, a3, heq⟩ |
      ⟨_, _, _, a4, heq⟩ | ⟨_, _, _, _, a5, heq⟩ | ⟨_, _, _, _, _, a6, heq⟩ |
      ⟨_, _, _, _, _, _, a7, heq⟩ | ⟨_, _, _, _, _, _, _, a8, heq⟩ |
      ⟨_, _, _, _, _, _, _, _, a9, heq⟩ | ⟨_, _, _, _, _, _, _, _, _, a10, heq⟩ |
      ⟨_, _, _, _, _, _, _, _, _, _, a11, heq⟩ | ⟨_, _, _, _, _, _, _, _, _, _, _, a12, heq⟩ |
      ⟨_, _, _, _, _, _, _, _, _, _, _, _, a13, heq⟩ |
      ⟨_, _, _, _, _, _, _, _, _, _, _, _, n13, _, heq⟩ |
      ⟨_, _, _, _, _, _, _, _, _, _, _, _, n13, _, _, heq⟩ |
      ⟨_, _, _, _, _, _, _, _, _, _, _, _, n13, _, _, heq⟩
    · exact absurd a1 (by simp [hm])
    · exact absurd a2 (by omega)
    · exact absurd a3 (by omega)
    · exact absurd a4 (by omega)
    · exact absurd a5.1 (by simp [hEB])
    · exact absurd a6.1 (by simp [hEB])
    · exact absurd a7 (by simp [hEB])
    · exact absurd a8 (by simp [hEC])
    · exact absurd a9 h8
    · exact absurd a10 h9
    · exact absurd a11 h10
    · exact absurd a12 (by omega)
    · rw [hA] at heq
      refine ⟨heq, rfl, ?_⟩
      rw [outcome12Paths, if_pos (le_refl 1), if_pos hB]
      rfl
    · exact absurd ⟨hA, hB⟩ n13
    · exact absurd ⟨hA, hB⟩ n13
    · exact absurd ⟨hA, hB⟩ n13
  · intro c r hc hr
    subst hr
    rcases check_rule_cases c with ⟨_, heq⟩ | ⟨_, _, heq⟩ | ⟨_, _, _, heq⟩ |
      ⟨_, _, _, _, heq⟩ | ⟨_, _, _, _, _, heq⟩ | ⟨_, _, _, _, _, _, heq⟩ |
      ⟨_, _, _, _, _, _, _, heq⟩ | ⟨_, _, _, _, _, _, _, _, heq⟩ |
      ⟨_, _, _, _, _, _, _, _, _, heq⟩ | ⟨_, _, _, _, _, _, _, _, _, _, heq⟩ |
      ⟨_, _, _, _, _, _, _, _, _, _, _, heq⟩ |
      ⟨_, _, _, _, _, _, _, _, _, _, _, _, heq⟩ |
      ⟨_, _, _, _, _, _, _, _, _, _, _, _, _, heq⟩ |
      ⟨_, _, _, n4, _, _, _, _, _, _, _, n12, n13, a14, heq⟩ |
      ⟨_, _, _, _, _, _, _, _, _, _, _, _, _, _, _, heq⟩ |
      ⟨_, _, _, _, _, _, _, _, _, _, _, _, _, _, _, heq⟩ <;>
        rw [hc] at heq
    · exact absurd (congrArg Result.status (Option.some.inj heq)) (by simp only [status_outcomeMajorAward, status_outcome1ExceptionalA, status_outcome2VeryStrongA, status_outcome3QualifiedA, status_outcome4ExceptionalB, status_outcome5VeryStrongB, status_outcome6QualifiedB, status_outcome7QualifiedC, status_outcome8NeedExperience, status_outcome9NeedOffer, status_outcome10OneShortB, status_outcome11OneShortA, status_outcome12Dual, status_outcome13Weak, status_outcome14PartialC, status_outcome15NotEligible]; decide)
    · exact absurd (congrArg Result.status (Option.some.inj heq)) (by simp only [status_outcomeMajorAward, status_outcome1ExceptionalA, status_outcome2VeryStrongA, status_outcome3QualifiedA, status_outcome4ExceptionalB, status_outcome5VeryStrongB, status_outcome6QualifiedB, status_outcome7QualifiedC, status_outcome8NeedExperience, status_outcome9NeedOffer, status_outcome10OneShortB, status_outcome11OneShortA, status_outcome12Dual, status_outcome13Weak, status_outcome14PartialC, status_outcome15NotEligible]; decide)
    · exact absurd (congrArg Result.status (Option.some.inj heq)) (by simp only [status_outcomeMajorAward, status_outcome1ExceptionalA, status_outcome2VeryStrongA, status_outcome3QualifiedA, status_outcome4ExceptionalB, status_outcome5VeryStrongB, status_outcome6QualifiedB, status_outcome7QualifiedC, status_outcome8NeedExperience, status_outcome9NeedOffer, status_outcome10OneShortB, status_outcome11OneShortA, status_outcome12Dual, status_outcome13Weak, status_outcome14PartialC, status_outcome15NotEligible]; decide)
    · exact absurd (congrArg Result.status (Option.some.inj heq)) (by simp only [status_outcomeMajorAward, status_outcome1ExceptionalA, status_outcome2VeryStrongA, status_outcome3QualifiedA, status_outcome4ExceptionalB, status_outcome5VeryStrongB, status_outcome6QualifiedB, status_outcome7QualifiedC, status_outcome8NeedExperience, status_outcome9NeedOffer, status_outcome10OneShortB, status_outcome11OneShortA, status_outcome12Dual, status_outcome13Weak, status_outcome14PartialC, status_outcome15NotEligible]; decide)
    · exact absurd (congrArg Result.status (Option.some.inj heq)) (by simp only [status_outcomeMajorAward, status_outcome1ExceptionalA, status_outcome2VeryStrongA, status_outcome3QualifiedA, status_outcome4ExceptionalB, status_outcome5VeryStrongB, status_outcome6QualifiedB, status_outcome7QualifiedC, status_outcome8NeedExperience, status_outcome9NeedOffer, status_outcome10OneShortB, status_outcome11OneShortA, status_outcome12Dual, status_outcome13Weak, status_outcome14PartialC, status_outcome15NotEligible]; decide)
    · exact absurd (congrArg Result.status (Option.some.inj heq)) (by simp only [status_outcomeMajorAward, status_outcome1ExceptionalA, status_outcome2VeryStrongA, status_outcome3QualifiedA, status_outcome4ExceptionalB, status_outcome5VeryStrongB, status_outcome6QualifiedB, status_outcome7QualifiedC, status_outcome8NeedExperience, status_outcome9NeedOffer, status_outcome10OneShortB, status_outcome11OneShortA, status_outcome12Dual, status_outcome13Weak, status_outcome14PartialC, status_outcome15NotEligible]; decide)
    · exact absurd (congrArg Result.status (Option.some.inj heq)) (by simp only [status_outcomeMajorAward, status_outcome1ExceptionalA, status_outcome2VeryStrongA, status_outcome3QualifiedA, status_outcome4ExceptionalB, status_outcome5VeryStrongB, status_outcome6QualifiedB, status_outcome7QualifiedC, status_outcome8NeedExperience, status_outcome9NeedOffer, status_outcome10OneShortB, status_outcome11OneShortA, status_outcome12Dual, status_outcome13Weak, status_outcome14PartialC, status_outcome15NotEligible]; decide)
    · exact absurd (congrArg Result.status (Option.some.inj heq)) (by simp only [status_outcomeMajorAward, status_outcome1ExceptionalA, status_outcome2VeryStrongA, status_outcome3QualifiedA, status_outcome4ExceptionalB, status_outcome5VeryStrongB, status_outcome6QualifiedB, status_outcome7QualifiedC, status_outcome8NeedExperience, status_outcome9NeedOffer, status_outcome10OneShortB, status_outcome11OneShortA, status_outcome12Dual, status_outcome13Weak, status_outcome14PartialC, status_outcome15NotEligible]; decide)
    · exact absurd (congrArg Result.status (Option.some.inj heq)) (by simp only [status_outcomeMajorAward, status_outcome1ExceptionalA, status_outcome2VeryStrongA, status_outcome3QualifiedA, status_outcome4ExceptionalB, status_outcome5VeryStrongB, status_outcome6QualifiedB, status_outcome7QualifiedC, status_outcome8NeedExperience, status_outcome9NeedOffer, status_outcome10OneShortB, status_outcome11OneShortA, status_outcome12Dual, status_outcome13Weak, status_outcome14PartialC, status_outcome15NotEligible]; decide)
    · exact absurd (congrArg Result.status (Option.some.inj heq)) (by simp only [status_outcomeMajorAward, status_outcome1ExceptionalA, status_outcome2VeryStrongA, status_outcome3QualifiedA, status_outcome4ExceptionalB, status_outcome5VeryStrongB, status_outcome6QualifiedB, status_outcome7QualifiedC, status_outcome8NeedExperience, status_outcome9NeedOffer, status_outcome10OneShortB, status_outcome11OneShortA, status_outcome12Dual, status_outcome13Weak, status_outcome14PartialC, status_outcome15NotEligible]; decide)
    · exact absurd (congrArg Result.status (Option.some.inj heq)) (by simp only [status_outcomeMajorAward, status_outcome1ExceptionalA, status_outcome2VeryStrongA, status_outcome3QualifiedA, status_outcome4ExceptionalB, status_outcome5VeryStrongB, status_outcome6QualifiedB, status_outcome7QualifiedC, status_outcome8NeedExperience, status_outcome9NeedOffer, status_outcome10OneShortB, status_outcome11OneShortA, status_outcome12Dual, status_outcome13Weak, status_outcome14PartialC, status_outcome15NotEligible]; decide)
    · exact absurd (congrArg Result.status (Option.some.inj heq)) (by simp only [status_outcomeMajorAward, status_outcome1ExceptionalA, status_outcome2VeryStrongA, status_outcome3QualifiedA, status_outcome4ExceptionalB, status_outcome5VeryStrongB, status_outcome6QualifiedB, status_outcome7QualifiedC, status_outcome8NeedExperience, status_outcome9NeedOffer, status_outcome10OneShortB, status_outcome11OneShortA, status_outcome12Dual, status_outcome13Weak, status_outcome14PartialC, status_outcome15NotEligible]; decide)
    · exact absurd (congrArg Result.status (Option.some.inj heq)) (by simp only [status_outcomeMajorAward, status_outcome1ExceptionalA, status_outcome2VeryStrongA, status_outcome3QualifiedA, status_outcome4ExceptionalB, status_outcome5VeryStrongB, status_outcome6QualifiedB, status_outcome7QualifiedC, status_outcome8NeedExperience, status_outcome9NeedOffer, status_outcome10OneShortB, status_outcome11OneShortA, status_outcome12Dual, status_outcome13Weak, status_outcome14PartialC, status_outcome15NotEligible]; decide)
    · omega
    · exact absurd (congrArg Result.status (Option.some.inj heq)) (by simp only [status_outcomeMajorAward, status_outcome1ExceptionalA, status_outcome2VeryStrongA, status_outcome3QualifiedA, status_outcome4ExceptionalB, status_outcome5VeryStrongB, status_outcome6QualifiedB, status_outcome7QualifiedC, status_outcome8NeedExperience, status_outcome9NeedOffer, status_outcome10OneShortB, status_outcome11OneShortA, status_outcome12Dual, status_outcome13Weak, status_outcome14PartialC, status_outcome15NotEligible]; decide)
    · exact absurd (congrArg Result.status (Option.some.inj heq)) (by simp only [status_outcomeMajorAward, status_outcome1ExceptionalA, status_outcome2VeryStrongA, status_outcome3QualifiedA, status_outcome4ExceptionalB, status_outcome5VeryStrongB, status_outcome6QualifiedB, status_outcome7QualifiedC, status_outcome8NeedExperience, status_outcome9NeedOffer, status_outcome10OneShortB, status_outcome11OneShortA, status_outcome12Dual, status_outcome13Weak, status_outcome14PartialC, status_outcome15NotEligible]; decide)

/-- Witness for C5: `publications` plus `published_articles` set gives
countA = 1 and countB = 1 and the dual outcome; `publications` alone
reaches the weak-profile rule with the other counter 0. -/
theorem c5_dual_profile_witness :
    (eb1a_criteria_met { publications := some true, published_articles := some true } = 1 ∧
     1 ≤ eb1b_criteria_met { publications := some true, published_articles := some true }) ∧
    check_eb1_eligibility { publications := some true, published_articles := some true } =
      some (outcome12Dual 1
        (eb1b_criteria_met { publications := some true, published_articles := some true })) ∧
    ((eb1a_criteria_met { publications := some true } = 1 ∧
      eb1b_criteria_met { publications := some true } = 0) ∨
     (eb1a_criteria_met { publications := some true } = 0 ∧
      eb1b_criteria_met { publications := some true } = 1)) := by
  refine ⟨⟨rfl, by decide⟩, ?_, ?_⟩
  · exact (c5_dual_profile.1 { publications := some true, published_articles := some true }
      rfl rfl (by decide) rfl rfl (by decide) (by decide) (by decide)).1
  · exact c5_dual_profile.2 { publications := some true } outcome13Weak rfl rfl

/-- C6.  With `major_award` false, countA and countB both 0, at least one
but not all of the three EB-1C attributes equal to yes (so `partial_c`
holds and `eb1c_eligible` does not), the classifier returns the
category-C incomplete outcome, not the final not-eligible outcome. -/
theorem c6_partial_c_incomplete (c : CriteriaData)
    (hm : c.major_award.getD false = false)
    (hA : eb1a_criteria_met c = 0) (hB : eb1b_criteria_met c = 0)
    (hp : partial_c c = true) (he : eb1c_eligible c = false) :
    check_eb1_eligibility c = some outcome14PartialC ∧
    outcome14PartialC.category = "EB-1C" ∧
    outcome14PartialC ≠ outcome15NotEligible := by
  refine ⟨?_, rfl, by decide⟩
  rcases check_rule_cases c with ⟨a1, heq⟩ | ⟨_, a2, heq⟩ | ⟨_, _, a3, heq⟩ |
    ⟨_, _, _, a4, heq⟩ | ⟨_, _, _, _, a5, heq⟩ | ⟨_, _, _, _, _, a6, heq⟩ |
    ⟨_, _, _, _, _, _, a7, heq⟩ | ⟨_, _, _, _, _, _, _, a8, heq⟩ |
    ⟨_, _, _, _, _, _, _, _, a9, heq⟩ | ⟨_, _, _, _, _, _, _, _, _, a10, heq⟩ |
    ⟨_, _, _, _, _, _, _, _, _, _, a11, heq⟩ | ⟨_, _, _, _, _, _, _, _, _, _, _, a12, heq⟩ |
    ⟨_, _, _, _, _, _, _, _, _, _, _, _, a13, heq⟩ |
    ⟨_, _, _, _, _, _, _, _, _, _, _, _, _, a14, heq⟩ |
    ⟨_, _, _, _, _, _, _, _, _, _, _, _, _, _, a15, heq⟩ |
    ⟨_, _, _, _, _, _, _, _, _, _, _, _, _, _, n15, heq⟩
  · exact absurd a1 (by simp [hm])
  · exact absurd a2 (by omega)
  · exact absurd a3 (by omega)
  · exact absurd a4 (by omega)
  · exact absurd a5.1 (by simp [eb1b_eligible, hB])
  · exact absurd a6.1 (by simp [eb1b_eligible, hB])
  · exact absurd a7 (by simp [eb1b_eligible, hB])
  · exact absurd a8 (by simp [he])
  · exact absurd a9.1 (by omega)
  · exact absurd a10.1 (by omega)
  · exact absurd a11.2 (by omega)
  · exact absurd a12 (by omega)
  · exact absurd a13.1 (by omega)
  · exact absurd a14 (by omega)
  · exact heq
  · exact absurd ⟨hA, hB, hp, by simp [he]⟩ n15

/-- Witness for C6: the spec scenario `managerial_role` yes,
`one_year_exp` yes, `transfer` no, all category A/B flags false. -/
theorem c6_partial_c_incomplete_witness :
    (eb1a_criteria_met
        { one_year_exp := some "yes", managerial_role := some "yes", transfer := some "no" } = 0 ∧
     eb1b_criteria_met
        { one_year_exp := some "yes", managerial_role := some "yes", transfer := some "no" } = 0 ∧
     partial_c
        { one_year_exp := some "yes", managerial_role := some "yes", transfer := some "no" } = true ∧
     eb1c_eligible
        { one_year_exp := some "yes", managerial_role := some "yes", transfer := some "no" } = false) ∧
    check_eb1_eligibility
        { one_year_exp := some "yes", managerial_role := some "yes", transfer := some "no" } =
      some outcome14PartialC := by
  refine ⟨⟨rfl, rfl, rfl, rfl⟩, ?_⟩
  exact (c6_partial_c_incomplete
    { one_year_exp := some "yes", managerial_role := some "yes", transfer := some "no" }
    rfl rfl rfl rfl rfl).1

/-- C7 (code bug).  The structured JSON report is documented to strip
the decorative glyphs from the Status field, but the replace chain only
removes the three glyphs of the check/yellow-circle/cross family: the
weak-profile outcome carries the orange-circle glyph, which survives
into the emitted Status, so the field is not plain text.  The input with
exactly one category-A flag set reaches that outcome. -/
theorem c7_status_glyph_not_stripped :
    check_eb1_eligibility { publications := some true } = some outcome13Weak ∧
    jsonStatus outcome13Weak = "\uF8FFüü† WEAK PROFILE" ∧
    ((jsonStatus outcome13Weak).toList.all fun ch => decide (ch.toNat ≤ 127)) = false ∧
    jsonStatus outcomeMajorAward = "HIGHLY LIKELY" ∧
    jsonStatus outcome15NotEligible = "NOT ELIGIBLE" ∧
    jsonStatus (outcome10OneShortB 1) = "ONE CRITERION SHORT" ∧
    jsonCategory outcome13Weak = "EB-1" := by
  exact ⟨rfl, rfl, rfl, rfl, rfl, rfl, rfl⟩

/-- C8 counterexample.  A boolean attribute value does not render
exactly as "Yes": the structured report decorates it with a glyph, and
the markdown report renders a decorated upper-case form. -/
theorem c8_boolean_not_plain_yes :
    jsonDisplayValue "publications" (.pyBool true) = "Yes (‚úÖ)" ∧
    jsonDisplayValue "publications" (.pyBool true) ≠ "Yes" ∧
    jsonDisplayValue "publications" (.pyBool true) ≠ "No" ∧
    markdownDisplayAnswer "publications" (.pyBool true) = "‚úÖ YES" ∧
    markdownDisplayAnswer "publications" (.pyBool true) ≠ "Yes" ∧
    markdownDisplayAnswer "publications" .pyNone = "None" := by decide

/-- C8 as amended: for keys other than `experience`, boolean true/false
and the strings yes/no render as the decorated forms "Yes (glyph)" and
"No (glyph)" in the structured report and "glyph YES"/"glyph NO" in the
markdown report; any other value renders as its literal Python string
form, in particular an absent key read as `None` renders as "None" (not
as the default value's formatting); the `experience` key renders
"3+ years" exactly when the value is the string `3_years` and
"Less than 3 years" otherwise. -/
theorem c8_formatting_amended (k s : String)
    (hk : k ≠ "experience") (hy : s ≠ "yes") (hn : s ≠ "no") :
    jsonDisplayValue k (.pyBool true) = "Yes (‚úÖ)" ∧
    jsonDisplayValue k (.pyBool false) = "No (‚ùå)" ∧
    jsonDisplayValue k (.pyStr "yes") = "Yes (‚úÖ)" ∧
    jsonDisplayValue k (.pyStr "no") = "No (‚ùå)" ∧
    jsonDisplayValue k (.pyStr s) = s ∧
    jsonDisplayValue k .pyNone = "None" ∧
    markdownDisplayAnswer k (.pyBool true) = "‚úÖ YES" ∧
    markdownDisplayAnswer k (.pyBool false) = "‚ùå NO" ∧
    markdownDisplayAnswer k (.pyStr "yes") = "‚úÖ YES" ∧
    markdownDisplayAnswer k (.pyStr "no") = "‚ùå NO" ∧
    markdownDisplayAnswer k (.pyStr s) = s ∧
    markdownDisplayAnswer k .pyNone = "None" ∧
    (∀ v : PyVal, jsonDisplayValue "experience" v =
      if v = .pyStr "3_years" then "3+ years" else "Less than 3 years") ∧
    (∀ v : PyVal, markdownDisplayAnswer "experience" v =
      if v = .pyStr "3_years" then "3+ years" else "Less than 3 years") := by
  refine ⟨?_, ?_, ?_, ?_, ?_, ?_, ?_, ?_, ?_, ?_, ?_, ?_, ?_, ?_⟩
  · simp [jsonDisplayValue, hk]
  · simp [jsonDisplayValue, hk]
  · simp [jsonDisplayValue, hk]
  · simp [jsonDisplayValue, hk]
  · simp [jsonDisplayValue, pyStrOf, hk, hy, hn]
  · simp [jsonDisplayValue, pyStrOf, hk]
  · simp [markdownDisplayAnswer, hk]
  · simp [markdownDisplayAnswer, hk]
  · simp [markdownDisplayAnswer, hk]
  · simp [markdownDisplayAnswer, hk]
  · simp [markdownDisplayAnswer, pyStrOf, hk, hy, hn]
  · simp [markdownDisplayAnswer, pyStrOf, hk]
  · intro v; simp [jsonDisplayValue]
  · intro v; simp [markdownDisplayAnswer]

/-- Witness for the amended C8 at the key `publications` and the
unrecognized string value `maybe`. -/
theorem c8_formatting_amended_witness :
    ("publications" : String) ≠ "experience" ∧ ("maybe" : String) ≠ "yes" ∧
    ("maybe" : String) ≠ "no" ∧
    jsonDisplayValue "publications" (.pyBool true) = "Yes (‚úÖ)" ∧
    jsonDisplayValue "publications" (.pyStr "maybe") = "maybe" := by
  have h := c8_formatting_amended "publications" "maybe" (by decide) (by decide) (by decide)
  exact ⟨by decide, by decide, by decide, h.1, h.2.2.2.2.1⟩

/-- C10 counterexample.  The map with only the two research booleans set
(countB = 2, no offer, no experience) reaches the final default
not-eligible outcome even though countB is not 0, so the biconditional
of the claim fails at this input. -/
theorem c10_not_eligible_counterexample :
    ¬((check_eb1_eligibility { published_articles := some true, judging_research := some true } =
        some outcome15NotEligible) ↔
      (({ published_articles := some true, judging_research := some true } :
          CriteriaData).major_award.getD false = false ∧
       eb1a_criteria_met { published_articles := some true, judging_research := some true } = 0 ∧
       eb1b_criteria_met { published_articles := some true, judging_research := some true } = 0 ∧
       ({ published_articles := some true, judging_research := some true } :
          CriteriaData).managerial_role ≠ some "yes" ∧
       ({ published_articles := some true, judging_research := some true } :
          CriteriaData).one_year_exp ≠ some "yes" ∧
       ({ published_articles := some true, judging_research := some true } :
          CriteriaData).transfer ≠ some "yes")) := by decide

/-- C10 as amended: the final default not-eligible outcome (category
EB-1, score 0 criteria, strength NOT ELIGIBLE) is returned exactly when
`major_award` is false, countA is 0, `eb1c_eligible` is false, and
either countB is 0 with none of the three category-C attributes yes, or
countB is at least 2 with the offer not yes and the experience not
3_years. -/
theorem c10_default_iff (c : CriteriaData) :
    (check_eb1_eligibility c = some outcome15NotEligible ↔
      (c.major_award.getD false = false ∧ eb1a_criteria_met c = 0 ∧
       eb1c_eligible c = false ∧
       ((eb1b_criteria_met c = 0 ∧ partial_c c = false) ∨
        (2 ≤ eb1b_criteria_met c ∧ c.offer ≠ some "yes" ∧
         c.experience ≠ some "3_years")))) ∧
    outcome15NotEligible.category = "EB-1" ∧
    outcome15NotEligible.score = "0 criteria" ∧
    outcome15NotEligible.strength = "NOT ELIGIBLE" := by
  refine ⟨⟨?_, ?_⟩, rfl, rfl, rfl⟩
  · intro h
    rcases check_rule_cases c with ⟨_, heq⟩ | ⟨_, _, heq⟩ | ⟨_, _, _, heq⟩ |
      ⟨_, _, _, _, heq⟩ | ⟨_, _, _, _, _, heq⟩ | ⟨_, _, _, _, _, _, heq⟩ |
      ⟨_, _, _, _, _, _, _, heq⟩ | ⟨_, _, _, _, _, _, _, _, heq⟩ |
      ⟨_, _, _, _, _, _, _, _, _, heq⟩ | ⟨_, _, _, _, _, _, _, _, _, _, heq⟩ |
      ⟨_, _, _, _, _, _, _, _, _, _, _, heq⟩ |
      ⟨_, _, _, _, _, _, _, _, _, _, _, _, heq⟩ |
      ⟨_, _, _, _, _, _, _, _, _, _, _, _, _, heq⟩ |
      ⟨_, _, _, _, _, _, _, _, _, _, _, _, _, _, heq⟩ |
      ⟨_, _, _, _, _, _, _, _, _, _, _, _, _, _, _, heq⟩ |
      ⟨n1, n2, n3, n4, n5, n6, n7, n8, n9, n10, n11, n12, n13, n14, n15, heq⟩ <;>
        rw [h] at heq
    · exact absurd (congrArg Result.status (Option.some.inj heq)) (by simp)
    · exact absurd (congrArg Result.status (Option.some.inj heq)) (by simp)
    · exact absurd (congrArg Result.status (Option.some.inj heq)) (by simp)
    · exact absurd (congrArg Result.status (Option.some.inj heq)) (by simp)
    · exact absurd (congrArg Result.status (Option.some.inj heq)) (by simp)
    · exact absurd (congrArg Result.status (Option.some.inj heq)) (by simp)
    · exact absurd (congrArg Result.status (Option.some.inj heq)) (by simp)
    · exact absurd (congrArg Result.status (Option.some.inj heq)) (by simp)
    · exact absurd (congrArg Result.status (Option.some.inj heq)) (by simp)
    · exact absurd (congrArg Result.status (Option.some.inj heq)) (by simp)
    · exact absurd (congrArg Result.status (Option.some.inj heq)) (by simp)
    · exact absurd (congrArg Result.status (Option.some.inj heq)) (by simp)
    · exact absurd (congrArg Result.status (Option.some.inj heq)) (by simp)
    · exact absurd (congrArg Result.status (Option.some.inj heq)) (by simp)
    · exact absurd (congrArg Result.status (Option.some.inj heq)) (by simp)
    · have hm : c.major_award.getD false = false := by
        rw [Bool.not_eq_true] at n1; exact n1
      have hA : eb1a_criteria_met c = 0 := by omega
      have hEC : eb1c_eligible c = false := by
        rw [Bool.not_eq_true] at n8; exact n8
      refine ⟨hm, hA, hEC, ?_⟩
      by_cases hB0 : eb1b_criteria_met c = 0
      · refine Or.inl ⟨hB0, ?_⟩
        by_cases hp : partial_c c = true
        · exact absurd ⟨hA, hB0, hp, fun hx => by rw [hEC] at hx; cases hx⟩ n15
        · rw [Bool.not_eq_true] at hp; exact hp
      · have h2B : 2 ≤ eb1b_criteria_met c := by omega
        have ho : c.offer ≠ some "yes" := by
          intro ho
          by_cases hx : c.experience = some "3_years"
          · refine absurd ?_ n7
            simp [eb1b_eligible, has_eb1b_basics, ho, hx, h2B]
          · exact absurd ⟨h2B, ho, hx⟩ n9
        have hx : c.experience ≠ some "3_years" := by
          intro hx
          exact absurd ⟨h2B, hx, ho⟩ n10
        exact Or.inr ⟨h2B, ho, hx⟩
  · rintro ⟨hm, hA, hEC, hd⟩
    have heligB : eb1b_eligible c = false := by
      rcases hd with ⟨hB0, _⟩ | ⟨_, _, hx⟩
      · simp [eb1b_eligible, hB0]
      · simp [eb1b_eligible, has_eb1b_basics, beq_eq_false_iff_ne.mpr hx]
    rcases check_rule_cases c with ⟨a1, heq⟩ | ⟨_, a2, heq⟩ | ⟨_, _, a3, heq⟩ |
      ⟨_, _, _, a4, heq⟩ | ⟨_, _, _, _, a5, heq⟩ | ⟨_, _, _, _, _, a6, heq⟩ |
      ⟨_, _, _, _, _, _, a7, heq⟩ | ⟨_, _, _, _, _, _, _, a8, heq⟩ |
      ⟨_, _, _, _, _, _, _, _, a9, heq⟩ | ⟨_, _, _, _, _, _, _, _, _, a10, heq⟩ |
      ⟨_, _, _, _, _, _, _, _, _, _, a11, heq⟩ |
      ⟨_, _, _, _, _, _, _, _, _, _, _, a12, heq⟩ |
      ⟨_, _, _, _, _, _, _, _, _, _, _, _, a13, heq⟩ |
      ⟨_, _, _, _, _, _, _, _, _, _, _, _, _, a14, heq⟩ |
      ⟨_, _, _, _, _, _, _, _, _, _, _, _, _, _, a15, heq⟩ |
      ⟨_, _, _, _, _, _, _, _, _, _, _, _, _, _, _, heq⟩
    · exact absurd a1 (by simp [hm])
    · exact absurd a2 (by omega)
    · exact absurd a3 (by omega)
    · exact absurd a4 (by omega)
    · exact absurd a5.1 (by simp [heligB])
    · exact absurd a6.1 (by simp [heligB])
    · exact absurd a7 (by simp [heligB])
    · exact absurd a8 (by simp [hEC])
    · rcases hd with ⟨hB0, _⟩ | ⟨_, ho, _⟩
      · exact absurd a9.1 (by omega)
      · exact absurd a9.2.1 ho
    · rcases hd with ⟨hB0, _⟩ | ⟨_, _, hx⟩
      · exact absurd a10.1 (by omega)
      · exact absurd a10.2.1 hx
    · rcases hd with ⟨hB0, _⟩ | ⟨h2B, _, _⟩
      · exact absurd a11.2 (by omega)
      · exact absurd a11.2 (by omega)
    · exact absurd a12 (by omega)
    · exact absurd a13.1 (by omega)
    · rcases hd with ⟨hB0, _⟩ | ⟨h2B, _, _⟩
      · exact absurd a14 (by omega)
      · exact absurd a14 (by omega)
    · rcases hd with ⟨_, hp⟩ | ⟨h2B, _, _⟩
      · exact absurd a15.2.2.1 (by simp [hp])
      · exact absurd a15.2.1 (by omega)
    · exact heq

end EB1
